import Mathlib

/-!
# Print-to-PDF reply coordination (atom/browser/printing/print_preview_message_handler.cc)

A shallow embedding of `PrintPreviewMessageHandler`: the callback map keyed by
request id, the worker-stop step, the copy of the shared region on the IO
thread and the delivery of the result to the registered callback.

The two browser threads are explicit task queues in the state.  Every function
of the source appends the effects it performs to an event log, in program
order, so that "was invoked", "exactly once" and "before" are statements about
that log.
-/

namespace atom

/-! ## Data model -/

/-- Identity of the function a non-null callback is bound to.  Handlers are
opaque: running one is recorded in the event log and has no other effect on the
state of the message handler. -/
abbrev Handler := Nat

/-- The type `PrintToPDFCallback`, a `base::Callback` taking an error value and a
buffer value.  A default-constructed callback is null. -/
inductive PrintToPDFCallback where
  | null
  | bound (h : Handler)
  deriving DecidableEq, Repr

/-- The values handed to a callback: `v8::Null(isolate)`, the result of
`node::Buffer::New` and the result of `v8::Exception::Error`. -/
inductive V8Value where
  | Null
  | Buffer (bytes : List Nat)
  | Error (message : String)
  deriving DecidableEq, Repr

/-- The part `content` of the preview parameters: the handle of the shared
region and `data_size` (a `uint32_t`). -/
structure PrintHostMsg_DidPrintContent_Params where
  metafile_data_handle : Nat
  data_size : Nat
  deriving DecidableEq, Repr

/-- The fields of `PrintHostMsg_DidPreviewDocument_Params` the handler reads. -/
structure PrintHostMsg_DidPreviewDocument_Params where
  content : PrintHostMsg_DidPrintContent_Params
  document_cookie : Int
  expected_pages_count : Int
  deriving DecidableEq, Repr

/-- The field of `PrintHostMsg_PreviewIds` the handler reads. -/
structure PrintHostMsg_PreviewIds where
  request_id : Int
  deriving DecidableEq, Repr

/-- An inbound IPC message, already decoded: the two kinds named in the message
maps of `OnMessageReceived`, and every other kind by its type tag. -/
inductive Message where
  | PrintHostMsg_MetafileReadyForPrinting
      (params : PrintHostMsg_DidPreviewDocument_Params) (ids : PrintHostMsg_PreviewIds)
  | PrintHostMsg_PrintPreviewFailed (document_cookie : Int) (ids : PrintHostMsg_PreviewIds)
  | Other (type : Nat)
  deriving DecidableEq, Repr

/-- The options dictionary of `PrintToPDF`, seen through the one read the source
makes: `GetInteger(printing::kPreviewRequestID, _)`, which yields nothing when
the key is missing.  The remaining settings are opaque. -/
structure DictionaryValue where
  kPreviewRequestID : Option Int
  settings : Nat
  deriving DecidableEq, Repr

/-- A `printing::PrinterQuery` of the print-query queue, known by its cookie;
`id` tells apart two queries that carry the same cookie. -/
structure PrinterQuery where
  cookie : Int
  id : Nat
  deriving DecidableEq, Repr

/-- A task posted to the IO thread: `PrinterQuery::StopWorker` bound to a query,
or `CopyPDFDataOnIOThread` bound to `params`, whose result is passed to the
reply `RunPrintToPDFCallback(request_id, data_size, _)` on the UI thread. -/
inductive IOTask where
  | StopWorker (printer_query : PrinterQuery)
  | CopyPDFData (params : PrintHostMsg_DidPreviewDocument_Params)
      (request_id : Int) (data_size : Nat)
  deriving DecidableEq, Repr

/-- A reply waiting on the UI thread: `RunPrintToPDFCallback` with the result of
the copy, `none` being the null pointer. -/
inductive UITask where
  | RunPrintToPDFCallback (request_id : Int) (data_size : Nat) (data : Option (List Nat))
  deriving DecidableEq, Repr

/-- The effects recorded in the event log. -/
inductive Event where
  /-- The function `StopWorker(document_cookie)` was entered. -/
  | StopWorker (document_cookie : Int)
  /-- The call `queue->PopPrinterQuery(document_cookie)` was made. -/
  | PopPrinterQuery (document_cookie : Int)
  /-- A task was posted to the IO thread. -/
  | PostTask (task : IOTask)
  /-- The posted `PrinterQuery::StopWorker` ran on the IO thread. -/
  | WorkerStopped (printer_query : PrinterQuery)
  /-- The posted `CopyPDFDataOnIOThread` ran on the IO thread and returned `result`. -/
  | CopyPDFData (request_id : Int) (result : Option (List Nat))
  /-- The call `print_to_pdf_callback_map_[request_id].Run(error, buffer)` ran handler `h`. -/
  | Run (request_id : Int) (h : Handler) (error buffer : V8Value)
  /-- The call `print_to_pdf_callback_map_.erase(request_id)` was made. -/
  | Erase (request_id : Int)
  /-- The message `PrintMsg_PrintPreview` was sent to the main frame. -/
  | Send (options : DictionaryValue)
  deriving DecidableEq, Repr

/-- The state the handler works on: its member `print_to_pdf_callback_map_`, the
print-query queue of the print job manager, the pending tasks of the IO thread,
the pending replies of the UI thread, and the event log. -/
structure State where
  print_to_pdf_callback_map_ : List (Int × PrintToPDFCallback)
  queue : List PrinterQuery
  io_thread : List IOTask
  ui_thread : List UITask
  trace : List Event
  deriving DecidableEq, Repr

/-- What ends a run abnormally: `Run` on a null callback, which dereferences the
null bind state. -/
inductive Fault where
  | NullCallbackRun (request_id : Int)
  deriving DecidableEq, Repr

/-- The result of a step that may fault: the value, or the fault together with
the state reached when it happened. -/
abbrev Outcome (α : Type) := Except (Fault × State) α

/-! ## `std::map<int, PrintToPDFCallback>`

The map is a list of entries.  The source uses `operator[]` and `erase` only,
so the order of the entries is never observed. -/

namespace CallbackMap

/-- The value stored under `key`, if any (`std::map::find`). -/
def find (m : List (Int × PrintToPDFCallback)) (key : Int) : Option PrintToPDFCallback :=
  match m with
  | [] => none
  | e :: rest => if e.1 = key then some e.2 else find rest key

/-- The map after `operator[]` has been evaluated at `key`: an absent key gets a
default-constructed (null) callback. -/
def subscript (m : List (Int × PrintToPDFCallback)) (key : Int) :
    List (Int × PrintToPDFCallback) :=
  match find m key with
  | some _ => m
  | none => m ++ [(key, PrintToPDFCallback.null)]

/-- The map after `m[key] = callback`. -/
def assign (m : List (Int × PrintToPDFCallback)) (key : Int) (callback : PrintToPDFCallback) :
    List (Int × PrintToPDFCallback) :=
  (subscript m key).map (fun e => if e.1 = key then (e.1, callback) else e)

/-- The map after `erase(key)`. -/
def erase (m : List (Int × PrintToPDFCallback)) (key : Int) :
    List (Int × PrintToPDFCallback) :=
  m.filter (fun e => decide (e.1 ≠ key))

/-- The entries stored under `key`. -/
def entries (m : List (Int × PrintToPDFCallback)) (key : Int) :
    List (Int × PrintToPDFCallback) :=
  m.filter (fun e => decide (e.1 = key))

end CallbackMap

/-! ## Collaborators outside the repository -/

/-- Modelled from the spec: `PrintQueriesQueue::PopPrinterQuery`, which is not
part of this repository.  It "looks up the outstanding render-worker query for
that cookie in the rendering subsystem's query queue, removes it from the
queue": the first query with that cookie is taken out and returned, the others
stay in place. -/
def PopPrinterQuery (queue : List PrinterQuery) (document_cookie : Int) :
    Option PrinterQuery × List PrinterQuery :=
  match queue with
  | [] => (none, [])
  | q :: rest =>
    if q.cookie = document_cookie then (some q, rest)
    else ((PopPrinterQuery rest document_cookie).1, q :: (PopPrinterQuery rest document_cookie).2)

/-- Modelled from the spec: `base::SharedMemory::Map`, which is not part of this
repository.  It "maps the shared memory region identified by `handle` for read
access sized `size`" and may fail: the table gives the bytes behind each live
handle, and the mapping succeeds when the handle is live and the region holds
at least `size` bytes. -/
def SharedMemoryMap (shm : List (Nat × List Nat)) (handle : Nat) (size : Nat) :
    Option (List Nat) :=
  match shm with
  | [] => none
  | (h, region) :: rest =>
    if h = handle then (if size ≤ region.length then some region else none)
    else SharedMemoryMap rest handle size

/-! ## The functions of print_preview_message_handler.cc -/

/-- Appends one event to the log. -/
def State.log (s : State) (e : Event) : State :=
  { s with trace := s.trace ++ [e] }

/-- The function `StopWorker` of the anonymous namespace. -/
def StopWorker (s : State) (document_cookie : Int) : State :=
  let s := s.log (Event.StopWorker document_cookie)
  if document_cookie ≤ 0 then s
  else
    let popped := PopPrinterQuery s.queue document_cookie
    let s := { s with queue := popped.2 }.log (Event.PopPrinterQuery document_cookie)
    match popped.1 with
    | some printer_query =>
      { s with io_thread := s.io_thread ++ [IOTask.StopWorker printer_query] }.log
        (Event.PostTask (IOTask.StopWorker printer_query))
    | none => s

/-- The function `CopyPDFDataOnIOThread`: null when the mapping fails, else a
fresh array of `data_size` bytes filled by `memcpy` from the mapped region. -/
def CopyPDFDataOnIOThread (shm : List (Nat × List Nat))
    (params : PrintHostMsg_DidPreviewDocument_Params) : Option (List Nat) :=
  let content := params.content
  match SharedMemoryMap shm content.metafile_data_handle content.data_size with
  | none => none
  | some memory => some (memory.take content.data_size)

/-- The expression `print_to_pdf_callback_map_[request_id].Run(error, buffer)`:
`operator[]` first, then `Run` on the callback found there. -/
def RunCallback (s : State) (request_id : Int) (error buffer : V8Value) : Outcome State :=
  let s := { s with
    print_to_pdf_callback_map_ := CallbackMap.subscript s.print_to_pdf_callback_map_ request_id }
  match CallbackMap.find s.print_to_pdf_callback_map_ request_id with
  | some (PrintToPDFCallback.bound h) => .ok (s.log (Event.Run request_id h error buffer))
  | _ => .error (Fault.NullCallbackRun request_id, s)

/-- The method `RunPrintToPDFCallback`; `data` is `none` for the null pointer. -/
def RunPrintToPDFCallback (s : State) (request_id : Int) (data_size : Nat)
    (data : Option (List Nat)) : Outcome State := do
  let s ← (match data with
    | some bytes =>
      let buffer := V8Value.Buffer (bytes.take data_size)
      RunCallback s request_id V8Value.Null buffer
    | none =>
      let error_message := "Failed to generate PDF"
      RunCallback s request_id (V8Value.Error error_message) V8Value.Null)
  pure ({ s with
    print_to_pdf_callback_map_ := CallbackMap.erase s.print_to_pdf_callback_map_ request_id }.log
      (Event.Erase request_id))

/-- The method `OnMetafileReadyForPrinting`. -/
def OnMetafileReadyForPrinting (s : State) (params : PrintHostMsg_DidPreviewDocument_Params)
    (ids : PrintHostMsg_PreviewIds) : State :=
  let s := StopWorker s params.document_cookie
  if params.expected_pages_count ≤ 0 then s
  else
    let task := IOTask.CopyPDFData params ids.request_id params.content.data_size
    { s with io_thread := s.io_thread ++ [task] }.log (Event.PostTask task)

/-- The method `OnPrintPreviewFailed`. -/
def OnPrintPreviewFailed (s : State) (document_cookie : Int) (ids : PrintHostMsg_PreviewIds) :
    Outcome State :=
  let s := StopWorker s document_cookie
  RunPrintToPDFCallback s ids.request_id 0 none

/-- The method `PrintToPDF`.  The local `request_id` is not initialised, and
`GetInteger` leaves it alone when the key is missing: `request_id` is the value
it holds before the call. -/
def PrintToPDF (s : State) (options : DictionaryValue) (callback : PrintToPDFCallback)
    (request_id : Int) : State :=
  let request_id := match options.kPreviewRequestID with
    | some v => v
    | none => request_id
  { s with
    print_to_pdf_callback_map_ :=
      CallbackMap.assign s.print_to_pdf_callback_map_ request_id callback }.log
    (Event.Send options)

/-- The method `OnMessageReceived`, on a decoded message.  The first message map
dispatches `PrintHostMsg_MetafileReadyForPrinting` and otherwise clears
`handled`; when `handled` is set the method returns true.  The second message
map dispatches `PrintHostMsg_PrintPreviewFailed` and otherwise clears `handled`,
which is then returned. -/
def OnMessageReceived (s : State) (message : Message) : Outcome (Bool × State) := do
  let first : Bool × State :=
    match message with
    | Message.PrintHostMsg_MetafileReadyForPrinting params ids =>
      (true, OnMetafileReadyForPrinting s params ids)
    | _ => (false, s)
  if first.1 then
    pure (true, first.2)
  else
    match message with
    | Message.PrintHostMsg_PrintPreviewFailed document_cookie ids =>
      let s ← OnPrintPreviewFailed first.2 document_cookie ids
      pure (true, s)
    | _ => pure (false, first.2)

/-! ## The two threads

`BrowserThread::PostTask` and `PostTaskAndReplyWithResult` are not part of this
repository.  -/

/-- Modelled from the spec: a task posted to the background context runs there
once; the result of a copy goes back to the primary context through "an explicit
reply callback that marshals the result back".  This is the body of one IO
task. -/
def RunIOTask (shm : List (Nat × List Nat)) (s : State) (task : IOTask) : State :=
  match task with
  | IOTask.StopWorker printer_query => s.log (Event.WorkerStopped printer_query)
  | IOTask.CopyPDFData params request_id data_size =>
    let result := CopyPDFDataOnIOThread shm params
    { s with
      ui_thread := s.ui_thread ++ [UITask.RunPrintToPDFCallback request_id data_size result] }.log
      (Event.CopyPDFData request_id result)

/-- Modelled from the spec: the IO thread runs the given pending tasks in the
order they were posted. -/
def RunIOTasks (shm : List (Nat × List Nat)) : List IOTask → State → State
  | [], s => s
  | task :: rest, s => RunIOTasks shm rest (RunIOTask shm { s with io_thread := rest } task)

/-- Modelled from the spec: the UI thread runs the given pending replies in the
order they arrived, up to the first fault. -/
def RunUITasks : List UITask → State → Outcome State
  | [], s => .ok s
  | UITask.RunPrintToPDFCallback request_id data_size data :: rest, s => do
    let s ← RunPrintToPDFCallback { s with ui_thread := rest } request_id data_size data
    RunUITasks rest s

/-- Modelled from the spec: both threads run until no task is left; the IO
thread first, then the replies it produced. -/
def RunUntilIdle (shm : List (Nat × List Nat)) (s : State) : Outcome State :=
  let s := RunIOTasks shm s.io_thread s
  RunUITasks s.ui_thread s

/-- The whole handling of one inbound message: `OnMessageReceived`, then the
tasks it scheduled and their replies. -/
def HandleMessage (shm : List (Nat × List Nat)) (s : State) (message : Message) :
    Outcome State := do
  let r ← OnMessageReceived s message
  RunUntilIdle shm r.2

/-! ## Observations used in the statements -/

/-- The state a run reached, whether it ended normally or by a fault. -/
def reached : Outcome State → State
  | .ok s => s
  | .error e => e.2

/-- The state a call of `OnMessageReceived` reached, whether it returned or
ended by a fault. -/
def reachedBy : Outcome (Bool × State) → State
  | .ok r => r.2
  | .error e => e.2

/-- The document cookie a reply message carries. -/
def Message.document_cookie : Message → Option Int
  | Message.PrintHostMsg_MetafileReadyForPrinting params _ => some params.document_cookie
  | Message.PrintHostMsg_PrintPreviewFailed document_cookie _ => some document_cookie
  | Message.Other _ => none

/-- A handler was run. -/
def Event.isRun : Event → Bool
  | Event.Run _ _ _ _ => true
  | _ => false

/-- The callback stored under `request_id` was run. -/
def Event.isRunOf (request_id : Int) : Event → Bool
  | Event.Run r _ _ _ => decide (r = request_id)
  | _ => false

/-- An entry of `StopWorker`. -/
def Event.isStopWorker : Event → Bool
  | Event.StopWorker _ => true
  | _ => false

/-- A query was popped from the print-query queue. -/
def Event.isPopPrinterQuery : Event → Bool
  | Event.PopPrinterQuery _ => true
  | _ => false

/-- A stop task was posted to the IO thread. -/
def Event.isPostStop : Event → Bool
  | Event.PostTask (IOTask.StopWorker _) => true
  | _ => false

/-- An effect of the worker-stop step: the entry of `StopWorker`, the pop of a
query, the posting of a stop task. -/
def Event.isStopStep : Event → Bool
  | Event.StopWorker _ => true
  | Event.PopPrinterQuery _ => true
  | Event.PostTask (IOTask.StopWorker _) => true
  | _ => false

/-- An effect of the buffer copy or of the resolution: the posting of the copy
task, its run on the IO thread, the run of a handler, the erasure of an entry. -/
def Event.isCopyOrResolution : Event → Bool
  | Event.PostTask (IOTask.CopyPDFData _ _ _) => true
  | Event.CopyPDFData _ _ => true
  | Event.Run _ _ _ _ => true
  | Event.Erase _ => true
  | _ => false

/-- The request id a reply message carries. -/
def Message.request_id : Message → Option Int
  | Message.PrintHostMsg_MetafileReadyForPrinting _ ids => some ids.request_id
  | Message.PrintHostMsg_PrintPreviewFailed _ ids => some ids.request_id
  | Message.Other _ => none

/-- The message is a reply that reaches a resolution: a failure message, or a
metafile message that passes the check of the page count. -/
def Message.isResolving : Message → Bool
  | Message.PrintHostMsg_MetafileReadyForPrinting params _ =>
    decide (0 < params.expected_pages_count)
  | Message.PrintHostMsg_PrintPreviewFailed _ _ => true
  | Message.Other _ => false

/-- The message takes a failure path: a failure message, or a metafile message
that passes the check of the page count and whose shared region fails to map. -/
def Message.isFailure (shm : List (Nat × List Nat)) : Message → Bool
  | Message.PrintHostMsg_MetafileReadyForPrinting params _ =>
    decide (0 < params.expected_pages_count)
      && (SharedMemoryMap shm params.content.metafile_data_handle
            params.content.data_size).isNone
  | Message.PrintHostMsg_PrintPreviewFailed _ _ => true
  | Message.Other _ => false

/-- The stop tasks `StopWorker` posts from a given queue: at most one. -/
def stopTasks (queue : List PrinterQuery) (document_cookie : Int) : List IOTask :=
  if document_cookie ≤ 0 then []
  else match (PopPrinterQuery queue document_cookie).1 with
    | some printer_query => [IOTask.StopWorker printer_query]
    | none => []

/-- The events `StopWorker` logs after its entry. -/
def stopEvents (queue : List PrinterQuery) (document_cookie : Int) : List Event :=
  if document_cookie ≤ 0 then []
  else Event.PopPrinterQuery document_cookie ::
    (stopTasks queue document_cookie).map Event.PostTask

/-- The queue `StopWorker` leaves. -/
def stopQueue (queue : List PrinterQuery) (document_cookie : Int) : List PrinterQuery :=
  if document_cookie ≤ 0 then queue else (PopPrinterQuery queue document_cookie).2

/-- The replies the IO thread produces from a list of tasks. -/
def ioReplies (shm : List (Nat × List Nat)) : List IOTask → List UITask
  | [] => []
  | IOTask.StopWorker _ :: rest => ioReplies shm rest
  | IOTask.CopyPDFData params request_id data_size :: rest =>
    UITask.RunPrintToPDFCallback request_id data_size (CopyPDFDataOnIOThread shm params) ::
      ioReplies shm rest

/-- The events the IO thread logs while running a list of tasks. -/
def ioEvents (shm : List (Nat × List Nat)) : List IOTask → List Event
  | [] => []
  | IOTask.StopWorker printer_query :: rest => Event.WorkerStopped printer_query :: ioEvents shm rest
  | IOTask.CopyPDFData params request_id _ :: rest =>
    Event.CopyPDFData request_id (CopyPDFDataOnIOThread shm params) :: ioEvents shm rest

/-- The run `RunPrintToPDFCallback` logs for a handler: a null error and the
buffer when there is data, the error and a null buffer when there is none. -/
def deliveredRun (request_id : Int) (h : Handler) (data_size : Nat)
    (data : Option (List Nat)) : Event :=
  match data with
  | some bytes => Event.Run request_id h V8Value.Null (V8Value.Buffer (bytes.take data_size))
  | none => Event.Run request_id h (V8Value.Error "Failed to generate PDF") V8Value.Null

/-- The events of the whole handling of a failure reply for a pending request. -/
def failedEvents (shm : List (Nat × List Nat)) (queue : List PrinterQuery)
    (document_cookie : Int) (request_id : Int) (h : Handler) : List Event :=
  (Event.StopWorker document_cookie :: stopEvents queue document_cookie) ++
    [deliveredRun request_id h 0 none, Event.Erase request_id] ++
    ioEvents shm (stopTasks queue document_cookie)

/-- The events of the whole handling of a metafile reply that passes the check
of the page count, for a pending request. -/
def readyEvents (shm : List (Nat × List Nat)) (queue : List PrinterQuery)
    (params : PrintHostMsg_DidPreviewDocument_Params) (request_id : Int) (h : Handler) :
    List Event :=
  (Event.StopWorker params.document_cookie :: stopEvents queue params.document_cookie) ++
    [Event.PostTask (IOTask.CopyPDFData params request_id params.content.data_size)] ++
    ioEvents shm (stopTasks queue params.document_cookie) ++
    [Event.CopyPDFData request_id (CopyPDFDataOnIOThread shm params)] ++
    [deliveredRun request_id h params.content.data_size (CopyPDFDataOnIOThread shm params),
     Event.Erase request_id]

/-! ## Runs of the handler under any schedule -/

/-- One step of a run of the handler: a message arrives on the UI thread, the IO
thread runs its oldest pending task, or the UI thread runs its oldest pending
reply. -/
inductive Step where
  | Receive (message : Message)
  | RunIOTask
  | RunUITask
  deriving DecidableEq, Repr

/-- Modelled from the spec: one step of the two execution contexts.  A message is
handled by `OnMessageReceived`; a thread with nothing pending does nothing. -/
def RunStep (shm : List (Nat × List Nat)) (s : State) : Step → Outcome State
  | Step.Receive message =>
    match OnMessageReceived s message with
    | .ok r => .ok r.2
    | .error e => .error e
  | Step.RunIOTask =>
    match s.io_thread with
    | [] => .ok s
    | task :: rest => .ok (RunIOTask shm { s with io_thread := rest } task)
  | Step.RunUITask =>
    match s.ui_thread with
    | [] => .ok s
    | UITask.RunPrintToPDFCallback request_id data_size data :: rest =>
      RunPrintToPDFCallback { s with ui_thread := rest } request_id data_size data

/-- Modelled from the spec: a finite run, step after step, up to the first
fault. -/
def RunSteps (shm : List (Nat × List Nat)) : List Step → State → Outcome State
  | [], s => .ok s
  | step :: rest, s =>
    match RunStep shm s step with
    | .ok s1 => RunSteps shm rest s1
    | .error e => .error e

/-- The values of one delivery: a null error with a buffer (the success path),
or the error with a null buffer (the failure path), never both. -/
def isDelivery (error buffer : V8Value) : Prop :=
  (error = V8Value.Null ∧ ∃ bytes, buffer = V8Value.Buffer bytes)
  ∨ (error = V8Value.Error "Failed to generate PDF" ∧ buffer = V8Value.Null)

/-- The log holds, for the callback stored under `r`, the runs of `base` and at
most one more, of handler `h`. -/
def RunAtMostOnce (r : Int) (h : Handler) (base trace : List Event) : Prop :=
  trace.filter (Event.isRunOf r) = base.filter (Event.isRunOf r)
  ∨ ∃ error buffer,
      trace.filter (Event.isRunOf r) = base.filter (Event.isRunOf r) ++ [Event.Run r h error buffer]
      ∧ isDelivery error buffer

/-- The invariant behind `RunAtMostOnce`: either `r` is still bound to `h` and
its callback has not been run since `base`, or it has been run once and `r` has
no entry. -/
def Tracked (r : Int) (h : Handler) (base : List Event) (s : State) : Prop :=
  (s.trace.filter (Event.isRunOf r) = base.filter (Event.isRunOf r)
    ∧ CallbackMap.find s.print_to_pdf_callback_map_ r = some (PrintToPDFCallback.bound h))
  ∨ (CallbackMap.find s.print_to_pdf_callback_map_ r = none
    ∧ ∃ error buffer,
        s.trace.filter (Event.isRunOf r)
          = base.filter (Event.isRunOf r) ++ [Event.Run r h error buffer]
        ∧ isDelivery error buffer)

/-! ## Destruction callbacks (atom/browser/atom_browser_main_parts.cc) -/

/-- A `base::OnceClosure`: null, or bound to a function known by `id`.  A closure
that has been moved from is null.  Closures are opaque: running one is recorded
in the log and has no other effect on the main parts. -/
inductive OnceClosure where
  | null
  | bound (id : Nat)
  deriving DecidableEq, Repr

/-- The effects `PostMainMessageLoopRun` records. -/
inductive MainPartsEvent where
  /-- The call `ui::SetX11ErrorHandlers` was made. -/
  | SetX11ErrorHandlers
  /-- The call `js_env_->OnMessageLoopDestroying()` was made. -/
  | OnMessageLoopDestroying
  /-- The call `FreeAppDelegate()` was made. -/
  | FreeAppDelegate
  /-- The closure bound to `id` was run. -/
  | Run (id : Nat)
  deriving DecidableEq, Repr

/-- The part of `AtomBrowserMainParts` the destruction callbacks live in: the
member `destructors_`, first element first, and the log of effects. -/
structure AtomBrowserMainParts where
  destructors_ : List OnceClosure
  trace : List MainPartsEvent
  deriving DecidableEq, Repr

/-- The method `RegisterDestructionCallback`: `insert` at `begin()`. -/
def RegisterDestructionCallback (parts : AtomBrowserMainParts) (callback : OnceClosure) :
    AtomBrowserMainParts :=
  { parts with destructors_ := callback :: parts.destructors_ }

/-- The loop of `PostMainMessageLoopRun` from `iter` to `end()`: each closure is
moved out of the list, which leaves a null closure in its place, and is run
when it is not null.  The result is the list from `iter` on and the log. -/
def RunDestructors : List OnceClosure → List MainPartsEvent →
    List OnceClosure × List MainPartsEvent
  | [], trace => ([], trace)
  | callback :: rest, trace =>
    let trace :=
      match callback with
      | OnceClosure.bound id => trace ++ [MainPartsEvent.Run id]
      | OnceClosure.null => trace
    let r := RunDestructors rest trace
    (OnceClosure.null :: r.1, r.2)

/-- The events of `PostMainMessageLoopRun` before its loop; `use_x11` and
`os_macosx` stand for the build flags `USE_X11` and `OS_MACOSX`. -/
def shutdownEvents (use_x11 os_macosx : Bool) : List MainPartsEvent :=
  (if use_x11 then [MainPartsEvent.SetX11ErrorHandlers] else []) ++
    [MainPartsEvent.OnMessageLoopDestroying] ++
    (if os_macosx then [MainPartsEvent.FreeAppDelegate] else [])

/-- The method `PostMainMessageLoopRun`. -/
def PostMainMessageLoopRun (use_x11 os_macosx : Bool) (parts : AtomBrowserMainParts) :
    AtomBrowserMainParts :=
  let trace := if use_x11 then parts.trace ++ [MainPartsEvent.SetX11ErrorHandlers]
    else parts.trace
  let trace := trace ++ [MainPartsEvent.OnMessageLoopDestroying]
  let trace := if os_macosx then trace ++ [MainPartsEvent.FreeAppDelegate] else trace
  let r := RunDestructors parts.destructors_ trace
  { destructors_ := r.1, trace := r.2 }

/-- The ids of the closures of a list that are not null, in the order of the list. -/
def boundIds : List OnceClosure → List Nat
  | [] => []
  | OnceClosure.bound id :: rest => id :: boundIds rest
  | OnceClosure.null :: rest => boundIds rest

/-- The main parts after the callbacks of a list have been registered, the first
of the list first. -/
def RegisterAll (parts : AtomBrowserMainParts) (callbacks : List OnceClosure) :
    AtomBrowserMainParts :=
  callbacks.foldl RegisterDestructionCallback parts

/-! ## Concrete states used to evaluate the definitions -/

/-- A state with two pending requests, `42` and `5`, two queued printer queries
with the cookies `7` and `9`, and idle threads. -/
def pendingState : State :=
  { print_to_pdf_callback_map_ := [(42, PrintToPDFCallback.bound 1), (5, PrintToPDFCallback.bound 2)]
    queue := [{ cookie := 7, id := 0 }, { cookie := 9, id := 1 }]
    io_thread := []
    ui_thread := []
    trace := [] }

/-- A state with nothing registered and nothing queued. -/
def emptyState : State :=
  { print_to_pdf_callback_map_ := []
    queue := []
    io_thread := []
    ui_thread := []
    trace := [] }

/-- A shared-memory table with one live handle, `100`, of five bytes. -/
def sharedRegions : List (Nat × List Nat) := [(100, [37, 80, 68, 70, 45])]

/-! ## The callback map -/

namespace CallbackMap

theorem find_append (m m2 : List (Int × PrintToPDFCallback)) (key : Int) :
    find (m ++ m2) key = (find m key).orElse (fun _ => find m2 key) := by
  induction m with
  | nil => simp [find]
  | cons e rest ih =>
    by_cases h : e.1 = key
    · simp [find, h]
    · simp [find, h, ih]

theorem subscript_of_find {m : List (Int × PrintToPDFCallback)} {key : Int}
    {cb : PrintToPDFCallback} (h : find m key = some cb) : subscript m key = m := by
  simp [subscript, h]

theorem subscript_of_absent {m : List (Int × PrintToPDFCallback)} {key : Int}
    (h : find m key = none) : subscript m key = m ++ [(key, PrintToPDFCallback.null)] := by
  simp [subscript, h]

theorem erase_cons (e : Int × PrintToPDFCallback) (rest : List (Int × PrintToPDFCallback))
    (key : Int) :
    erase (e :: rest) key = if e.1 = key then erase rest key else e :: erase rest key := by
  by_cases h : e.1 = key <;> simp [erase, List.filter_cons, h]

theorem find_erase_self (m : List (Int × PrintToPDFCallback)) (key : Int) :
    find (erase m key) key = none := by
  induction m with
  | nil => simp [erase, find]
  | cons e rest ih =>
    rw [erase_cons]
    by_cases h : e.1 = key
    · simp [h, ih]
    · simp [h, find, ih]

theorem find_erase_ne (m : List (Int × PrintToPDFCallback)) {a b : Int} (hab : a ≠ b) :
    find (erase m a) b = find m b := by
  induction m with
  | nil => simp [erase, find]
  | cons e rest ih =>
    rw [erase_cons]
    by_cases h : e.1 = a
    · have hb : ¬ e.1 = b := by rw [h]; exact hab
      rw [if_pos h, ih]
      simp only [find, if_neg hb]
    · rw [if_neg h]
      by_cases hb : e.1 = b
      · simp only [find, if_pos hb]
      · simp only [find, if_neg hb, ih]

theorem erase_of_absent {m : List (Int × PrintToPDFCallback)} {key : Int}
    (h : find m key = none) : erase m key = m := by
  induction m with
  | nil => simp [erase]
  | cons e rest ih =>
    rw [erase_cons]
    by_cases he : e.1 = key
    · simp [find, he] at h
    · simp only [find, if_neg he] at h
      rw [if_neg he, ih h]

theorem erase_append (m m2 : List (Int × PrintToPDFCallback)) (key : Int) :
    erase (m ++ m2) key = erase m key ++ erase m2 key := by
  simp [erase]

end CallbackMap

/-! ## The functions, in closed form -/

theorem OnMessageReceived_ready (s : State) (params : PrintHostMsg_DidPreviewDocument_Params)
    (ids : PrintHostMsg_PreviewIds) :
    OnMessageReceived s (Message.PrintHostMsg_MetafileReadyForPrinting params ids)
      = .ok (true, OnMetafileReadyForPrinting s params ids) := rfl

theorem OnMessageReceived_failed (s : State) (document_cookie : Int)
    (ids : PrintHostMsg_PreviewIds) :
    OnMessageReceived s (Message.PrintHostMsg_PrintPreviewFailed document_cookie ids)
      = (match RunPrintToPDFCallback (StopWorker s document_cookie) ids.request_id 0 none with
          | .ok s1 => .ok (true, s1)
          | .error e => .error e) := by
  simp only [OnMessageReceived, OnPrintPreviewFailed, bind, Except.bind, pure, Except.pure]
  cases RunPrintToPDFCallback (StopWorker s document_cookie) ids.request_id 0 none <;> rfl

theorem OnMessageReceived_other (s : State) (type : Nat) :
    OnMessageReceived s (Message.Other type) = .ok (false, s) := rfl

theorem StopWorker_eq (s : State) (document_cookie : Int) :
    StopWorker s document_cookie =
      { s with
        queue := stopQueue s.queue document_cookie
        io_thread := s.io_thread ++ stopTasks s.queue document_cookie
        trace := s.trace ++
          Event.StopWorker document_cookie :: stopEvents s.queue document_cookie } := by
  unfold StopWorker stopQueue stopEvents stopTasks State.log
  by_cases h : document_cookie ≤ 0
  · simp [h]
  · simp only [h, if_false]
    cases (PopPrinterQuery s.queue document_cookie).1 <;> simp

theorem RunCallback_of_bound (s : State) (request_id : Int) (error buffer : V8Value)
    (h : Handler)
    (hfind : CallbackMap.find s.print_to_pdf_callback_map_ request_id
      = some (PrintToPDFCallback.bound h)) :
    RunCallback s request_id error buffer
      = .ok (s.log (Event.Run request_id h error buffer)) := by
  unfold RunCallback
  simp [CallbackMap.subscript_of_find hfind, hfind]

theorem RunCallback_of_absent (s : State) (request_id : Int) (error buffer : V8Value)
    (hfind : CallbackMap.find s.print_to_pdf_callback_map_ request_id = none) :
    RunCallback s request_id error buffer
      = .error (Fault.NullCallbackRun request_id,
          { s with print_to_pdf_callback_map_ :=
              s.print_to_pdf_callback_map_ ++ [(request_id, PrintToPDFCallback.null)] }) := by
  unfold RunCallback
  simp [CallbackMap.subscript_of_absent hfind, CallbackMap.find_append, hfind, CallbackMap.find]

theorem RunPrintToPDFCallback_of_bound (s : State) (request_id : Int) (data_size : Nat)
    (data : Option (List Nat)) (h : Handler)
    (hfind : CallbackMap.find s.print_to_pdf_callback_map_ request_id
      = some (PrintToPDFCallback.bound h)) :
    RunPrintToPDFCallback s request_id data_size data
      = .ok { s with
          print_to_pdf_callback_map_ := CallbackMap.erase s.print_to_pdf_callback_map_ request_id
          trace := s.trace ++
            [deliveredRun request_id h data_size data, Event.Erase request_id] } := by
  unfold RunPrintToPDFCallback
  cases data with
  | none =>
    simp only [RunCallback_of_bound s request_id _ _ h hfind]
    simp [State.log, bind, Except.bind, pure, Except.pure, deliveredRun]
  | some bytes =>
    simp only [RunCallback_of_bound s request_id _ _ h hfind]
    simp [State.log, bind, Except.bind, pure, Except.pure, deliveredRun]

theorem RunPrintToPDFCallback_mk_of_bound (m : List (Int × PrintToPDFCallback))
    (queue : List PrinterQuery) (io : List IOTask) (ui : List UITask) (trace : List Event)
    (request_id : Int) (data_size : Nat) (data : Option (List Nat)) (h : Handler)
    (hfind : CallbackMap.find m request_id = some (PrintToPDFCallback.bound h)) :
    RunPrintToPDFCallback
        { print_to_pdf_callback_map_ := m, queue := queue, io_thread := io, ui_thread := ui,
          trace := trace } request_id data_size data
      = .ok
        { print_to_pdf_callback_map_ := CallbackMap.erase m request_id
          queue := queue
          io_thread := io
          ui_thread := ui
          trace := trace ++
            [deliveredRun request_id h data_size data, Event.Erase request_id] } :=
  RunPrintToPDFCallback_of_bound _ request_id data_size data h hfind

theorem RunPrintToPDFCallback_of_absent (s : State) (request_id : Int) (data_size : Nat)
    (data : Option (List Nat))
    (hfind : CallbackMap.find s.print_to_pdf_callback_map_ request_id = none) :
    RunPrintToPDFCallback s request_id data_size data
      = .error (Fault.NullCallbackRun request_id,
          { s with print_to_pdf_callback_map_ :=
              s.print_to_pdf_callback_map_ ++ [(request_id, PrintToPDFCallback.null)] }) := by
  unfold RunPrintToPDFCallback
  cases data with
  | none =>
    simp only [RunCallback_of_absent s request_id _ _ hfind]
    simp [bind, Except.bind]
  | some bytes =>
    simp only [RunCallback_of_absent s request_id _ _ hfind]
    simp [bind, Except.bind]

theorem RunCallback_of_null (s : State) (request_id : Int) (error buffer : V8Value)
    (hfind : CallbackMap.find s.print_to_pdf_callback_map_ request_id
      = some PrintToPDFCallback.null) :
    RunCallback s request_id error buffer = .error (Fault.NullCallbackRun request_id, s) := by
  unfold RunCallback
  simp [CallbackMap.subscript_of_find hfind, hfind]

theorem RunPrintToPDFCallback_of_null (s : State) (request_id : Int) (data_size : Nat)
    (data : Option (List Nat))
    (hfind : CallbackMap.find s.print_to_pdf_callback_map_ request_id
      = some PrintToPDFCallback.null) :
    RunPrintToPDFCallback s request_id data_size data
      = .error (Fault.NullCallbackRun request_id, s) := by
  unfold RunPrintToPDFCallback
  cases data with
  | none =>
    simp only [RunCallback_of_null s request_id _ _ hfind]
    simp [bind, Except.bind]
  | some bytes =>
    simp only [RunCallback_of_null s request_id _ _ hfind]
    simp [bind, Except.bind]

theorem stopTasks_cases (queue : List PrinterQuery) (document_cookie : Int) :
    stopTasks queue document_cookie = []
    ∨ ∃ printer_query, stopTasks queue document_cookie = [IOTask.StopWorker printer_query] := by
  unfold stopTasks
  by_cases h : document_cookie ≤ 0
  · simp [h]
  · simp only [h, if_false]
    cases (PopPrinterQuery queue document_cookie).1 <;> simp

theorem stopEvents_isStopStep (queue : List PrinterQuery) (document_cookie : Int) :
    ∀ e ∈ stopEvents queue document_cookie, e.isStopStep = true := by
  intro e he
  unfold stopEvents at he
  by_cases h : document_cookie ≤ 0
  · simp [h] at he
  · simp only [h, if_false] at he
    rcases stopTasks_cases queue document_cookie with h0 | ⟨q, h1⟩
    · simp [h0] at he
      simp [he, Event.isStopStep]
    · simp [h1] at he
      rcases he with he | he <;> simp [he, Event.isStopStep]

theorem RunIOTasks_eq (shm : List (Nat × List Nat)) (tasks : List IOTask) (s : State) :
    RunIOTasks shm tasks s =
      { s with
        io_thread := if tasks = [] then s.io_thread else []
        ui_thread := s.ui_thread ++ ioReplies shm tasks
        trace := s.trace ++ ioEvents shm tasks } := by
  induction tasks generalizing s with
  | nil => simp [RunIOTasks, ioReplies, ioEvents]
  | cons task rest ih =>
    cases task with
    | StopWorker q =>
      simp only [RunIOTasks, RunIOTask, State.log, ih, ioReplies, ioEvents]
      by_cases hr : rest = [] <;> simp [hr]
    | CopyPDFData params request_id data_size =>
      simp only [RunIOTasks, RunIOTask, State.log, ih, ioReplies, ioEvents]
      by_cases hr : rest = [] <;> simp [hr]

theorem ioEvents_not_stopStep (shm : List (Nat × List Nat)) (tasks : List IOTask) :
    ∀ e ∈ ioEvents shm tasks, e.isStopStep = false := by
  induction tasks with
  | nil => simp [ioEvents]
  | cons task rest ih =>
    cases task with
    | StopWorker q =>
      intro e he
      simp only [ioEvents, List.mem_cons] at he
      rcases he with he | he
      · simp [he, Event.isStopStep]
      · exact ih e he
    | CopyPDFData params request_id data_size =>
      intro e he
      simp only [ioEvents, List.mem_cons] at he
      rcases he with he | he
      · simp [he, Event.isStopStep]
      · exact ih e he

/-- Whatever the map holds, `RunPrintToPDFCallback` only appends runs and
erasures to the log, and leaves the print-query queue alone. -/
theorem RunPrintToPDFCallback_effects (s : State) (request_id : Int) (data_size : Nat)
    (data : Option (List Nat)) :
    ∃ evs, (reached (RunPrintToPDFCallback s request_id data_size data)).trace = s.trace ++ evs
      ∧ (∀ e ∈ evs, e.isStopStep = false)
      ∧ (reached (RunPrintToPDFCallback s request_id data_size data)).queue = s.queue := by
  cases hfind : CallbackMap.find s.print_to_pdf_callback_map_ request_id with
  | none =>
    rw [RunPrintToPDFCallback_of_absent s request_id data_size data hfind]
    exact ⟨[], by simp [reached], by simp, rfl⟩
  | some cb =>
    cases cb with
    | null =>
      rw [RunPrintToPDFCallback_of_null s request_id data_size data hfind]
      exact ⟨[], by simp [reached], by simp, rfl⟩
    | bound h =>
      rw [RunPrintToPDFCallback_of_bound s request_id data_size data h hfind]
      refine ⟨_, rfl, ?_, rfl⟩
      intro e he
      cases data <;> simp [deliveredRun] at he <;> rcases he with he | he <;>
        simp [he, Event.isStopStep]

theorem RunUITasks_effects (tasks : List UITask) (s : State) :
    ∃ evs, (reached (RunUITasks tasks s)).trace = s.trace ++ evs
      ∧ (∀ e ∈ evs, e.isStopStep = false)
      ∧ (reached (RunUITasks tasks s)).queue = s.queue := by
  induction tasks generalizing s with
  | nil => exact ⟨[], by simp [RunUITasks, reached], by simp, rfl⟩
  | cons task rest ih =>
    cases task with
    | RunPrintToPDFCallback request_id data_size data =>
      obtain ⟨evs, htr, hev, hq⟩ :=
        RunPrintToPDFCallback_effects { s with ui_thread := rest } request_id data_size data
      cases hres : RunPrintToPDFCallback { s with ui_thread := rest } request_id data_size data with
      | error e =>
        rw [hres] at htr hq
        refine ⟨evs, ?_, hev, ?_⟩
        · simpa [RunUITasks, hres, bind, Except.bind, reached] using htr
        · simpa [RunUITasks, hres, bind, Except.bind, reached] using hq
      | ok s1 =>
        rw [hres] at htr hq
        simp only [reached] at htr hq
        obtain ⟨evs2, htr2, hev2, hq2⟩ := ih s1
        refine ⟨evs ++ evs2, ?_, ?_, ?_⟩
        · simp only [RunUITasks, hres, bind, Except.bind]
          rw [htr2, htr]
          simp
        · intro e he
          rcases List.mem_append.mp he with he | he
          · exact hev e he
          · exact hev2 e he
        · simp only [RunUITasks, hres, bind, Except.bind]
          rw [hq2, hq]

theorem RunUntilIdle_effects (shm : List (Nat × List Nat)) (s : State) :
    ∃ evs, (reached (RunUntilIdle shm s)).trace = s.trace ++ evs
      ∧ (∀ e ∈ evs, e.isStopStep = false)
      ∧ (reached (RunUntilIdle shm s)).queue = s.queue := by
  unfold RunUntilIdle
  obtain ⟨evs, htr, hev, hq⟩ :=
    RunUITasks_effects (RunIOTasks shm s.io_thread s).ui_thread (RunIOTasks shm s.io_thread s)
  refine ⟨ioEvents shm s.io_thread ++ evs, ?_, ?_, ?_⟩
  · simp only [htr]
    rw [RunIOTasks_eq]
    simp
  · intro e he
    rcases List.mem_append.mp he with he | he
    · exact ioEvents_not_stopStep shm _ e he
    · exact hev e he
  · simp only [hq]
    rw [RunIOTasks_eq]

theorem PopPrinterQuery_length (queue : List PrinterQuery) (document_cookie : Int) :
    queue.length ≤ (PopPrinterQuery queue document_cookie).2.length + 1 := by
  induction queue with
  | nil => simp [PopPrinterQuery]
  | cons q rest ih =>
    by_cases h : q.cookie = document_cookie
    · simp [PopPrinterQuery, h]
    · simp only [PopPrinterQuery, h, if_false, List.length_cons]
      omega

theorem isStopStep_of_isPopPrinterQuery (e : Event) (h : e.isPopPrinterQuery = true) :
    e.isStopStep = true := by
  cases e with
  | PopPrinterQuery document_cookie => rfl
  | _ => simp [Event.isPopPrinterQuery] at h

theorem isStopStep_of_isPostStop (e : Event) (h : e.isPostStop = true) :
    e.isStopStep = true := by
  cases e with
  | PostTask task =>
    cases task with
    | StopWorker printer_query => rfl
    | CopyPDFData params request_id data_size => simp [Event.isPostStop] at h
  | _ => simp [Event.isPostStop] at h

theorem isStopStep_of_isStopWorker (e : Event) (h : e.isStopWorker = true) :
    e.isStopStep = true := by
  cases e with
  | StopWorker document_cookie => rfl
  | _ => simp [Event.isStopWorker] at h

theorem not_isCopyOrResolution_of_isStopStep (e : Event) (h : e.isStopStep = true) :
    e.isCopyOrResolution = false := by
  cases e with
  | PostTask task =>
    cases task with
    | StopWorker printer_query => rfl
    | CopyPDFData params request_id data_size => simp [Event.isStopStep] at h
  | StopWorker document_cookie => rfl
  | PopPrinterQuery document_cookie => rfl
  | _ => simp [Event.isStopStep] at h

theorem OnMetafileReadyForPrinting_eq (s : State)
    (params : PrintHostMsg_DidPreviewDocument_Params) (ids : PrintHostMsg_PreviewIds) :
    OnMetafileReadyForPrinting s params ids =
      { s with
        queue := stopQueue s.queue params.document_cookie
        io_thread := s.io_thread ++ stopTasks s.queue params.document_cookie ++
          (if params.expected_pages_count ≤ 0 then []
           else [IOTask.CopyPDFData params ids.request_id params.content.data_size])
        trace := s.trace ++
          (Event.StopWorker params.document_cookie ::
            stopEvents s.queue params.document_cookie) ++
          (if params.expected_pages_count ≤ 0 then []
           else [Event.PostTask
             (IOTask.CopyPDFData params ids.request_id params.content.data_size)]) } := by
  unfold OnMetafileReadyForPrinting
  rw [StopWorker_eq]
  by_cases h : params.expected_pages_count ≤ 0 <;> simp [h, State.log]

/-- The effects of the whole handling of a reply, from any state: the log grows
by the entry of `StopWorker` with the cookie of the message, then by the events
of the worker-stop step, then by events that are not worker-stop events. -/
theorem HandleMessage_effects (shm : List (Nat × List Nat)) (s : State) (message : Message)
    (document_cookie : Int) (hc : message.document_cookie = some document_cookie) :
    ∃ rest, (reached (HandleMessage shm s message)).trace
        = s.trace ++ (Event.StopWorker document_cookie :: stopEvents s.queue document_cookie)
            ++ rest
      ∧ (∀ e ∈ rest, e.isStopStep = false)
      ∧ (reached (HandleMessage shm s message)).queue = stopQueue s.queue document_cookie := by
  cases message with
  | Other type => simp [Message.document_cookie] at hc
  | PrintHostMsg_MetafileReadyForPrinting params ids =>
    simp only [Message.document_cookie, Option.some.injEq] at hc
    subst hc
    obtain ⟨evs, htr, hev, hq⟩ :=
      RunUntilIdle_effects shm (OnMetafileReadyForPrinting s params ids)
    simp only [HandleMessage, OnMessageReceived_ready, bind, Except.bind]
    refine ⟨(if params.expected_pages_count ≤ 0 then []
      else [Event.PostTask (IOTask.CopyPDFData params ids.request_id params.content.data_size)])
      ++ evs, ?_, ?_, ?_⟩
    · rw [htr, OnMetafileReadyForPrinting_eq]
      simp
    · intro e he
      rcases List.mem_append.mp he with he | he
      · by_cases h : params.expected_pages_count ≤ 0
        · simp [h] at he
        · simp [h] at he
          simp [he, Event.isStopStep]
      · exact hev e he
    · rw [hq, OnMetafileReadyForPrinting_eq]
  | PrintHostMsg_PrintPreviewFailed cookie ids =>
    simp only [Message.document_cookie, Option.some.injEq] at hc
    subst hc
    obtain ⟨evs, htr, hev, hq⟩ :=
      RunPrintToPDFCallback_effects (StopWorker s cookie) ids.request_id 0 none
    cases hres : RunPrintToPDFCallback (StopWorker s cookie) ids.request_id 0 none with
    | error e =>
      rw [hres] at htr hq
      simp only [reached] at htr hq
      refine ⟨evs, ?_, hev, ?_⟩
      · simp only [HandleMessage, OnMessageReceived_failed, hres, bind,
          Except.bind, reached]
        rw [htr, StopWorker_eq]
      · simp only [HandleMessage, OnMessageReceived_failed, hres, bind,
          Except.bind, reached]
        rw [hq, StopWorker_eq]
    | ok s1 =>
      rw [hres] at htr hq
      simp only [reached] at htr hq
      obtain ⟨evs2, htr2, hev2, hq2⟩ := RunUntilIdle_effects shm s1
      refine ⟨evs ++ evs2, ?_, ?_, ?_⟩
      · simp only [HandleMessage, OnMessageReceived_failed, hres, bind,
          Except.bind, pure, Except.pure]
        rw [htr2, htr, StopWorker_eq]
        simp
      · intro e he
        rcases List.mem_append.mp he with he | he
        · exact hev e he
        · exact hev2 e he
      · simp only [HandleMessage, OnMessageReceived_failed, hres, bind,
          Except.bind, pure, Except.pure]
        rw [hq2, hq, StopWorker_eq]

theorem filter_eq_nil_of_not_stopStep (p : Event → Bool) (rest : List Event)
    (hp : ∀ e, p e = true → e.isStopStep = true)
    (hrest : ∀ e ∈ rest, e.isStopStep = false) : rest.filter p = [] := by
  rw [List.filter_eq_nil_iff]
  intro e he hpe
  have h1 := hp e hpe
  have h2 := hrest e he
  rw [h1] at h2
  cases h2

theorem stopEvents_counts (queue : List PrinterQuery) (document_cookie : Int) :
    ((stopEvents queue document_cookie).filter Event.isPopPrinterQuery).length ≤ 1
    ∧ ((stopEvents queue document_cookie).filter Event.isPostStop).length ≤ 1
    ∧ (stopEvents queue document_cookie).filter Event.isStopWorker = []
    ∧ (document_cookie ≤ 0 → stopEvents queue document_cookie = []) := by
  unfold stopEvents
  by_cases h : document_cookie ≤ 0
  · simp [h]
  · simp only [h, if_false]
    rcases stopTasks_cases queue document_cookie with h0 | ⟨q, h1⟩
    · simp [h0, Event.isPopPrinterQuery, Event.isPostStop, Event.isStopWorker]
    · simp [h1, Event.isPopPrinterQuery, Event.isPostStop, Event.isStopWorker]

theorem ioReplies_stopTasks (shm : List (Nat × List Nat)) (queue : List PrinterQuery)
    (document_cookie : Int) : ioReplies shm (stopTasks queue document_cookie) = [] := by
  rcases stopTasks_cases queue document_cookie with h0 | ⟨q, h1⟩
  · simp [h0, ioReplies]
  · simp [h1, ioReplies]

theorem ioReplies_append (shm : List (Nat × List Nat)) (a b : List IOTask) :
    ioReplies shm (a ++ b) = ioReplies shm a ++ ioReplies shm b := by
  induction a with
  | nil => simp [ioReplies]
  | cons task rest ih => cases task <;> simp [ioReplies, ih]

theorem ioEvents_append (shm : List (Nat × List Nat)) (a b : List IOTask) :
    ioEvents shm (a ++ b) = ioEvents shm a ++ ioEvents shm b := by
  induction a with
  | nil => simp [ioEvents]
  | cons task rest ih => cases task <;> simp [ioEvents, ih]

theorem filter_isRun_stopEvents (queue : List PrinterQuery) (document_cookie : Int) :
    (stopEvents queue document_cookie).filter Event.isRun = [] := by
  rw [List.filter_eq_nil_iff]
  intro e he hrun
  have h := stopEvents_isStopStep queue document_cookie e he
  cases e <;> simp [Event.isRun] at hrun
  simp [Event.isStopStep] at h

theorem filter_isRun_ioEvents_stopTasks (shm : List (Nat × List Nat))
    (queue : List PrinterQuery) (document_cookie : Int) :
    (ioEvents shm (stopTasks queue document_cookie)).filter Event.isRun = [] := by
  rcases stopTasks_cases queue document_cookie with h0 | ⟨q, h1⟩
  · simp [h0, ioEvents]
  · simp [h1, ioEvents, Event.isRun]

/-- The whole handling of a failure reply for a pending request, from a state
with idle threads. -/
theorem HandleMessage_failed_idle (shm : List (Nat × List Nat)) (s : State)
    (document_cookie : Int) (ids : PrintHostMsg_PreviewIds) (h : Handler)
    (hio : s.io_thread = []) (hui : s.ui_thread = [])
    (hpend : CallbackMap.find s.print_to_pdf_callback_map_ ids.request_id
      = some (PrintToPDFCallback.bound h)) :
    HandleMessage shm s (Message.PrintHostMsg_PrintPreviewFailed document_cookie ids)
      = .ok
        { print_to_pdf_callback_map_ :=
            CallbackMap.erase s.print_to_pdf_callback_map_ ids.request_id
          queue := stopQueue s.queue document_cookie
          io_thread := []
          ui_thread := []
          trace := s.trace ++
            failedEvents shm s.queue document_cookie ids.request_id h } := by
  have hpend2 : CallbackMap.find (StopWorker s document_cookie).print_to_pdf_callback_map_
      ids.request_id = some (PrintToPDFCallback.bound h) := by
    rw [StopWorker_eq]
    exact hpend
  simp only [HandleMessage, OnMessageReceived_failed, bind, Except.bind, pure,
    Except.pure, RunPrintToPDFCallback_of_bound _ _ _ _ h hpend2, RunUntilIdle, RunIOTasks_eq]
  rw [StopWorker_eq]
  simp only [hio, hui, List.nil_append, ioReplies_stopTasks, RunUITasks, failedEvents]
  rcases stopTasks_cases s.queue document_cookie with h0 | ⟨q, h1⟩
  · simp [h0, ioEvents]
  · simp [h1, ioEvents]

/-- The whole handling of a metafile reply that passes the check of the page
count, for a pending request, from a state with idle threads. -/
theorem HandleMessage_ready_idle (shm : List (Nat × List Nat)) (s : State)
    (params : PrintHostMsg_DidPreviewDocument_Params) (ids : PrintHostMsg_PreviewIds)
    (h : Handler)
    (hio : s.io_thread = []) (hui : s.ui_thread = [])
    (hpend : CallbackMap.find s.print_to_pdf_callback_map_ ids.request_id
      = some (PrintToPDFCallback.bound h))
    (hpages : 0 < params.expected_pages_count) :
    HandleMessage shm s (Message.PrintHostMsg_MetafileReadyForPrinting params ids)
      = .ok
        { print_to_pdf_callback_map_ :=
            CallbackMap.erase s.print_to_pdf_callback_map_ ids.request_id
          queue := stopQueue s.queue params.document_cookie
          io_thread := []
          ui_thread := []
          trace := s.trace ++ readyEvents shm s.queue params ids.request_id h } := by
  have hp : ¬ params.expected_pages_count ≤ 0 := by omega
  simp only [HandleMessage, OnMessageReceived_ready, bind, Except.bind, RunUntilIdle, RunIOTasks_eq,
    OnMetafileReadyForPrinting_eq, hp, if_false, hio, hui, List.nil_append, ioReplies_append,
    ioReplies_stopTasks, ioReplies, ioEvents_append, ioEvents, RunUITasks]
  rw [RunPrintToPDFCallback_mk_of_bound _ _ _ _ _ _ _ _ h hpend]
  simp [readyEvents]

theorem SharedMemoryMap_length (shm : List (Nat × List Nat)) (handle size : Nat)
    (memory : List Nat) (hmap : SharedMemoryMap shm handle size = some memory) :
    size ≤ memory.length := by
  induction shm with
  | nil => simp [SharedMemoryMap] at hmap
  | cons e rest ih =>
    obtain ⟨h, region⟩ := e
    by_cases hh : h = handle
    · by_cases hs : size ≤ region.length
      · simp [SharedMemoryMap, hh, hs] at hmap
        rw [← hmap]
        exact hs
      · simp [SharedMemoryMap, hh, hs] at hmap
    · simp only [SharedMemoryMap, hh, if_false] at hmap
      exact ih hmap

theorem deliveredRun_isRun (request_id : Int) (h : Handler) (data_size : Nat)
    (data : Option (List Nat)) : (deliveredRun request_id h data_size data).isRun = true := by
  cases data <;> rfl

theorem filter_isRun_readyEvents (shm : List (Nat × List Nat)) (queue : List PrinterQuery)
    (params : PrintHostMsg_DidPreviewDocument_Params) (request_id : Int) (h : Handler) :
    (readyEvents shm queue params request_id h).filter Event.isRun
      = [deliveredRun request_id h params.content.data_size
          (CopyPDFDataOnIOThread shm params)] := by
  have h1 : (Event.StopWorker params.document_cookie).isRun = false := rfl
  have h2 : (Event.PostTask
    (IOTask.CopyPDFData params request_id params.content.data_size)).isRun = false := rfl
  have h3 : (Event.CopyPDFData request_id (CopyPDFDataOnIOThread shm params)).isRun = false :=
    rfl
  have h4 : (Event.Erase request_id).isRun = false := rfl
  simp [readyEvents, List.filter_append, List.filter_cons, filter_isRun_stopEvents,
    filter_isRun_ioEvents_stopTasks, h1, h2, h3, h4, deliveredRun_isRun]

theorem filter_isRun_failedEvents (shm : List (Nat × List Nat)) (queue : List PrinterQuery)
    (document_cookie : Int) (request_id : Int) (h : Handler) :
    (failedEvents shm queue document_cookie request_id h).filter Event.isRun
      = [deliveredRun request_id h 0 none] := by
  have h1 : (Event.StopWorker document_cookie).isRun = false := rfl
  have h4 : (Event.Erase request_id).isRun = false := rfl
  simp [failedEvents, List.filter_append, List.filter_cons, filter_isRun_stopEvents,
    filter_isRun_ioEvents_stopTasks, h1, h4, deliveredRun_isRun]

theorem CopyPDFDataOnIOThread_of_map (shm : List (Nat × List Nat))
    (params : PrintHostMsg_DidPreviewDocument_Params) (memory : List Nat)
    (hmap : SharedMemoryMap shm params.content.metafile_data_handle params.content.data_size
      = some memory) :
    CopyPDFDataOnIOThread shm params = some (memory.take params.content.data_size) := by
  simp [CopyPDFDataOnIOThread, hmap]

theorem CopyPDFDataOnIOThread_of_map_failure (shm : List (Nat × List Nat))
    (params : PrintHostMsg_DidPreviewDocument_Params)
    (hmap : SharedMemoryMap shm params.content.metafile_data_handle params.content.data_size
      = none) :
    CopyPDFDataOnIOThread shm params = none := by
  simp [CopyPDFDataOnIOThread, hmap]

namespace CallbackMap

theorem find_map_assign (m : List (Int × PrintToPDFCallback)) (key : Int)
    (callback : PrintToPDFCallback) :
    find (m.map (fun e => if e.1 = key then (e.1, callback) else e)) key
      = (find m key).map (fun _ => callback) := by
  induction m with
  | nil => simp [find]
  | cons e rest ih =>
    by_cases h : e.1 = key
    · simp [find, h]
    · simp [find, h, ih]

theorem entries_map_assign (m : List (Int × PrintToPDFCallback)) (key : Int)
    (callback : PrintToPDFCallback) :
    entries (m.map (fun e => if e.1 = key then (e.1, callback) else e)) key
      = (entries m key).map (fun _ => (key, callback)) := by
  induction m with
  | nil => simp [entries]
  | cons e rest ih =>
    simp only [entries] at ih
    by_cases h : e.1 = key
    · simp [entries, List.filter_cons, h, ih]
    · simp [entries, List.filter_cons, h, ih]

theorem find_eq_head_entries (m : List (Int × PrintToPDFCallback)) (key : Int) :
    find m key = ((entries m key).head?).map Prod.snd := by
  induction m with
  | nil => simp [find, entries]
  | cons e rest ih =>
    simp only [entries] at ih
    by_cases h : e.1 = key
    · simp [find, entries, List.filter_cons, h]
    · simp [find, entries, List.filter_cons, h, ih]

theorem find_assign_self (m : List (Int × PrintToPDFCallback)) (key : Int)
    (callback : PrintToPDFCallback) : find (assign m key callback) key = some callback := by
  unfold assign
  rw [find_map_assign]
  cases h : find m key with
  | none => simp [subscript_of_absent h, find_append, h, find]
  | some cb => simp [subscript_of_find h, h]

theorem entries_erase (m : List (Int × PrintToPDFCallback)) (key : Int) :
    entries (erase m key) key = [] := by
  simp [entries, erase, List.filter_filter]

end CallbackMap

/-- A request issued through `PrintToPDF` is pending under the id of its
options, bound to the callback that was passed. -/
theorem PrintToPDF_registers (s : State) (options : DictionaryValue)
    (callback : PrintToPDFCallback) (uninitialised r : Int)
    (hopt : options.kPreviewRequestID = some r) :
    CallbackMap.find (PrintToPDF s options callback uninitialised).print_to_pdf_callback_map_ r
      = some callback := by
  simp [PrintToPDF, hopt, State.log, CallbackMap.find_assign_self]

theorem PopPrinterQuery_absent (queue : List PrinterQuery) (document_cookie : Int)
    (habsent : ∀ q ∈ queue, q.cookie ≠ document_cookie) :
    PopPrinterQuery queue document_cookie = (none, queue) := by
  induction queue with
  | nil => rfl
  | cons q rest ih =>
    have hq : ¬ q.cookie = document_cookie := habsent q (List.mem_cons_self _ _)
    have hrest := ih (fun x hx => habsent x (List.mem_cons_of_mem _ hx))
    simp [PopPrinterQuery, hq, hrest]

theorem PopPrinterQuery_present (queue : List PrinterQuery) (document_cookie : Int)
    (hpresent : ∃ q ∈ queue, q.cookie = document_cookie) :
    ∃ before q after, queue = before ++ q :: after ∧ q.cookie = document_cookie
      ∧ (∀ x ∈ before, x.cookie ≠ document_cookie)
      ∧ PopPrinterQuery queue document_cookie = (some q, before ++ after) := by
  induction queue with
  | nil =>
    obtain ⟨q, hq, _⟩ := hpresent
    cases hq
  | cons q rest ih =>
    by_cases hq : q.cookie = document_cookie
    · exact ⟨[], q, rest, rfl, hq, by simp, by simp [PopPrinterQuery, hq]⟩
    · have hrest : ∃ x ∈ rest, x.cookie = document_cookie := by
        obtain ⟨x, hx, hxc⟩ := hpresent
        rcases List.mem_cons.mp hx with h | h
        · rw [h] at hxc
          exact absurd hxc hq
        · exact ⟨x, h, hxc⟩
      obtain ⟨before, x, after, hsplit, hxc, hbefore, hpop⟩ := ih hrest
      refine ⟨q :: before, x, after, by simp [hsplit], hxc, ?_, ?_⟩
      · intro y hy
        rcases List.mem_cons.mp hy with h | h
        · rw [h]
          exact hq
        · exact hbefore y h
      · simp [PopPrinterQuery, hq, hpop]

theorem PopPrinterQuery_others (queue : List PrinterQuery) (document_cookie : Int) :
    (PopPrinterQuery queue document_cookie).2.filter
        (fun q => decide (q.cookie ≠ document_cookie))
      = queue.filter (fun q => decide (q.cookie ≠ document_cookie)) := by
  induction queue with
  | nil => rfl
  | cons q rest ih =>
    by_cases hq : q.cookie = document_cookie
    · simp [PopPrinterQuery, hq, List.filter_cons]
    · simp only [PopPrinterQuery, hq, if_false, List.filter_cons, ih]

/-- The effects of `OnMessageReceived` on a reply, from any state: it first does
all that `StopWorker` does with the cookie of the message, and what follows
holds no worker-stop event and leaves the print-query queue alone. -/
theorem OnMessageReceived_effects (s : State) (message : Message)
    (document_cookie : Int) (hc : message.document_cookie = some document_cookie) :
    ∃ rest tasks,
      (reachedBy (OnMessageReceived s message)).trace
        = (StopWorker s document_cookie).trace ++ rest
      ∧ (∀ e ∈ rest, e.isStopStep = false)
      ∧ (reachedBy (OnMessageReceived s message)).queue = (StopWorker s document_cookie).queue
      ∧ (reachedBy (OnMessageReceived s message)).io_thread
          = (StopWorker s document_cookie).io_thread ++ tasks := by
  cases message with
  | Other type => simp [Message.document_cookie] at hc
  | PrintHostMsg_MetafileReadyForPrinting params ids =>
    simp only [Message.document_cookie, Option.some.injEq] at hc
    subst hc
    rw [OnMessageReceived_ready]
    simp only [reachedBy, OnMetafileReadyForPrinting]
    by_cases h : params.expected_pages_count ≤ 0
    · exact ⟨[], [], by simp [h], by simp, by simp [h], by simp [h]⟩
    · refine ⟨[Event.PostTask
        (IOTask.CopyPDFData params ids.request_id params.content.data_size)],
        [IOTask.CopyPDFData params ids.request_id params.content.data_size],
        by simp [h, State.log], ?_, by simp [h, State.log], by simp [h, State.log]⟩
      intro e he
      simp at he
      simp [he, Event.isStopStep]
  | PrintHostMsg_PrintPreviewFailed cookie ids =>
    simp only [Message.document_cookie, Option.some.injEq] at hc
    subst hc
    rw [OnMessageReceived_failed]
    cases hfind : CallbackMap.find (StopWorker s cookie).print_to_pdf_callback_map_
        ids.request_id with
    | none =>
      rw [RunPrintToPDFCallback_of_absent _ _ _ _ hfind]
      exact ⟨[], [], by simp [reachedBy], by simp, rfl, by simp [reachedBy]⟩
    | some cb =>
      cases cb with
      | null =>
        rw [RunPrintToPDFCallback_of_null _ _ _ _ hfind]
        exact ⟨[], [], by simp [reachedBy], by simp, rfl, by simp [reachedBy]⟩
      | bound h =>
        rw [RunPrintToPDFCallback_of_bound _ _ _ _ h hfind]
        refine ⟨[deliveredRun ids.request_id h 0 none, Event.Erase ids.request_id], [],
          rfl, ?_, rfl, by simp [reachedBy]⟩
        intro e he
        simp [deliveredRun] at he
        rcases he with he | he <;> simp [he, Event.isStopStep]

/-! ## At most one resolution -/

theorem RunAtMostOnce_of_Tracked {r : Int} {h : Handler} {base : List Event} {s : State}
    (hJ : Tracked r h base s) : RunAtMostOnce r h base s.trace := by
  rcases hJ with ⟨htr, _⟩ | ⟨_, error, buffer, htr, hd⟩
  · exact Or.inl htr
  · exact Or.inr ⟨error, buffer, htr, hd⟩

/-- The invariant only reads the log and the entry of `r`: a step that adds no
run of the callback of `r` and leaves that entry alone keeps it. -/
theorem Tracked_frame {r : Int} {h : Handler} {base : List Event} {s s1 : State}
    (evs : List Event)
    (htrace : s1.trace = s.trace ++ evs) (hevs : evs.filter (Event.isRunOf r) = [])
    (hmap : CallbackMap.find s1.print_to_pdf_callback_map_ r
      = CallbackMap.find s.print_to_pdf_callback_map_ r)
    (hJ : Tracked r h base s) : Tracked r h base s1 := by
  have hfilter : s1.trace.filter (Event.isRunOf r) = s.trace.filter (Event.isRunOf r) := by
    rw [htrace, List.filter_append, hevs, List.append_nil]
  unfold Tracked
  rw [hfilter, hmap]
  exact hJ

theorem deliveredRun_shape (request_id : Int) (h : Handler) (data_size : Nat)
    (data : Option (List Nat)) :
    ∃ error buffer, deliveredRun request_id h data_size data
      = Event.Run request_id h error buffer ∧ isDelivery error buffer := by
  cases data with
  | none => exact ⟨_, _, rfl, Or.inr ⟨rfl, rfl⟩⟩
  | some bytes => exact ⟨_, _, rfl, Or.inl ⟨rfl, _, rfl⟩⟩

theorem filter_isRunOf_stopEvents (r : Int) (queue : List PrinterQuery)
    (document_cookie : Int) :
    (Event.StopWorker document_cookie :: stopEvents queue document_cookie).filter
      (Event.isRunOf r) = [] := by
  rw [List.filter_eq_nil_iff]
  intro e he hrun
  have hstep : e.isStopStep = true := by
    rcases List.mem_cons.mp he with he | he
    · rw [he]
      rfl
    · exact stopEvents_isStopStep _ _ e he
  cases e with
  | Run request_id h error buffer => simp [Event.isStopStep] at hstep
  | _ => simp [Event.isRunOf] at hrun

theorem StopWorker_Tracked {r : Int} {h : Handler} {base : List Event} {s : State}
    (document_cookie : Int) (hJ : Tracked r h base s) :
    Tracked r h base (StopWorker s document_cookie) := by
  refine Tracked_frame _ ?_ (filter_isRunOf_stopEvents r s.queue document_cookie) ?_ hJ
  · rw [StopWorker_eq]
  · rw [StopWorker_eq]

theorem RunPrintToPDFCallback_Tracked {r : Int} {h : Handler} {base : List Event} {s : State}
    (request_id : Int) (data_size : Nat) (data : Option (List Nat))
    (hJ : Tracked r h base s) :
    (∀ s1, RunPrintToPDFCallback s request_id data_size data = .ok s1 → Tracked r h base s1)
    ∧ (∀ e, RunPrintToPDFCallback s request_id data_size data = .error e →
        RunAtMostOnce r h base e.2.trace) := by
  cases hfind : CallbackMap.find s.print_to_pdf_callback_map_ request_id with
  | none =>
    rw [RunPrintToPDFCallback_of_absent s request_id data_size data hfind]
    refine ⟨fun s1 h1 => (nomatch h1), fun e he => ?_⟩
    cases he
    show RunAtMostOnce r h base s.trace
    exact RunAtMostOnce_of_Tracked hJ
  | some cb =>
    cases cb with
    | null =>
      rw [RunPrintToPDFCallback_of_null s request_id data_size data hfind]
      refine ⟨fun s1 h1 => (nomatch h1), fun e he => ?_⟩
      cases he
      exact RunAtMostOnce_of_Tracked hJ
    | bound h2 =>
      rw [RunPrintToPDFCallback_of_bound s request_id data_size data h2 hfind]
      refine ⟨fun s1 h1 => ?_, fun e he => nomatch he⟩
      cases h1
      by_cases hr : request_id = r
      · subst hr
        rcases hJ with ⟨htr, hmap⟩ | ⟨hmap, _⟩
        · rw [hmap] at hfind
          cases hfind
          obtain ⟨error, buffer, hrun, hd⟩ := deliveredRun_shape request_id h data_size data
          refine Or.inr ⟨CallbackMap.find_erase_self _ _, error, buffer, ?_, hd⟩
          simp [List.filter_append, List.filter_cons, htr, hrun, Event.isRunOf]
        · rw [hmap] at hfind
          cases hfind
      · obtain ⟨error, buffer, hrun, _⟩ := deliveredRun_shape request_id h2 data_size data
        refine Tracked_frame
          [deliveredRun request_id h2 data_size data, Event.Erase request_id] rfl ?_ ?_ hJ
        · simp [List.filter_cons, hrun, Event.isRunOf, hr]
        · exact CallbackMap.find_erase_ne _ hr

theorem OnMetafileReadyForPrinting_Tracked {r : Int} {h : Handler} {base : List Event}
    {s : State} (params : PrintHostMsg_DidPreviewDocument_Params)
    (ids : PrintHostMsg_PreviewIds) (hJ : Tracked r h base s) :
    Tracked r h base (OnMetafileReadyForPrinting s params ids) := by
  refine Tracked_frame
    ((Event.StopWorker params.document_cookie :: stopEvents s.queue params.document_cookie) ++
      (if params.expected_pages_count ≤ 0 then []
       else [Event.PostTask
         (IOTask.CopyPDFData params ids.request_id params.content.data_size)]))
    ?_ ?_ ?_ hJ
  · rw [OnMetafileReadyForPrinting_eq]
    simp
  · rw [List.filter_append, filter_isRunOf_stopEvents]
    by_cases hp : params.expected_pages_count ≤ 0
    · simp [hp]
    · simp [hp, Event.isRunOf]
  · rw [OnMetafileReadyForPrinting_eq]

theorem OnMessageReceived_Tracked {r : Int} {h : Handler} {base : List Event} {s : State}
    (message : Message) (hJ : Tracked r h base s) :
    (∀ x, OnMessageReceived s message = .ok x → Tracked r h base x.2)
    ∧ (∀ e, OnMessageReceived s message = .error e → RunAtMostOnce r h base e.2.trace) := by
  cases message with
  | Other type =>
    rw [OnMessageReceived_other]
    refine ⟨fun x hx => ?_, fun e he => (nomatch he)⟩
    cases hx
    exact hJ
  | PrintHostMsg_MetafileReadyForPrinting params ids =>
    rw [OnMessageReceived_ready]
    refine ⟨fun x hx => ?_, fun e he => (nomatch he)⟩
    cases hx
    exact OnMetafileReadyForPrinting_Tracked params ids hJ
  | PrintHostMsg_PrintPreviewFailed document_cookie ids =>
    rw [OnMessageReceived_failed]
    obtain ⟨hok, herr⟩ := RunPrintToPDFCallback_Tracked ids.request_id 0 none
      (StopWorker_Tracked document_cookie hJ)
    cases hres : RunPrintToPDFCallback (StopWorker s document_cookie) ids.request_id 0 none with
    | error e1 =>
      refine ⟨fun x hx => (nomatch hx), fun e he => ?_⟩
      cases he
      exact herr e1 hres
    | ok s1 =>
      refine ⟨fun x hx => ?_, fun e he => (nomatch he)⟩
      cases hx
      exact hok s1 hres

theorem RunStep_Tracked {r : Int} {h : Handler} {base : List Event} {s : State}
    (shm : List (Nat × List Nat)) (step : Step) (hJ : Tracked r h base s) :
    (∀ s1, RunStep shm s step = .ok s1 → Tracked r h base s1)
    ∧ (∀ e, RunStep shm s step = .error e → RunAtMostOnce r h base e.2.trace) := by
  cases step with
  | Receive message =>
    obtain ⟨hok, herr⟩ := OnMessageReceived_Tracked message hJ
    simp only [RunStep]
    cases hres : OnMessageReceived s message with
    | error e1 =>
      refine ⟨fun s1 hs => (nomatch hs), fun e he => ?_⟩
      cases he
      exact herr e1 hres
    | ok x =>
      refine ⟨fun s1 hs => ?_, fun e he => (nomatch he)⟩
      cases hs
      exact hok x hres
  | RunIOTask =>
    simp only [RunStep]
    cases hio : s.io_thread with
    | nil =>
      refine ⟨fun s1 hs => ?_, fun e he => (nomatch he)⟩
      cases hs
      exact hJ
    | cons task rest =>
      refine ⟨fun s1 hs => ?_, fun e he => (nomatch he)⟩
      cases hs
      cases task with
      | StopWorker printer_query =>
        exact Tracked_frame [Event.WorkerStopped printer_query] rfl rfl rfl hJ
      | CopyPDFData params request_id data_size =>
        exact Tracked_frame
          [Event.CopyPDFData request_id (CopyPDFDataOnIOThread shm params)] rfl rfl rfl hJ
  | RunUITask =>
    simp only [RunStep]
    cases hui : s.ui_thread with
    | nil =>
      refine ⟨fun s1 hs => ?_, fun e he => (nomatch he)⟩
      cases hs
      exact hJ
    | cons task rest =>
      cases task with
      | RunPrintToPDFCallback request_id data_size data =>
        have hJ2 : Tracked r h base { s with ui_thread := rest } := hJ
        exact RunPrintToPDFCallback_Tracked request_id data_size data hJ2

theorem RunSteps_Tracked {r : Int} {h : Handler} {base : List Event}
    (shm : List (Nat × List Nat)) (steps : List Step) (s : State)
    (hJ : Tracked r h base s) :
    RunAtMostOnce r h base (reached (RunSteps shm steps s)).trace := by
  induction steps generalizing s with
  | nil => exact RunAtMostOnce_of_Tracked hJ
  | cons step rest ih =>
    obtain ⟨hok, herr⟩ := RunStep_Tracked shm step hJ
    simp only [RunSteps]
    cases hres : RunStep shm s step with
    | error e => exact herr e hres
    | ok s1 => exact ih s1 (hok s1 hres)

/-! ## Destruction callbacks -/

theorem RunDestructors_eq (callbacks : List OnceClosure) (trace : List MainPartsEvent) :
    RunDestructors callbacks trace
      = (callbacks.map (fun _ => OnceClosure.null),
          trace ++ (boundIds callbacks).map MainPartsEvent.Run) := by
  induction callbacks generalizing trace with
  | nil => simp [RunDestructors, boundIds]
  | cons callback rest ih =>
    cases callback with
    | null => simp [RunDestructors, boundIds, ih]
    | bound id => simp [RunDestructors, boundIds, ih]

theorem PostMainMessageLoopRun_eq (use_x11 os_macosx : Bool) (parts : AtomBrowserMainParts) :
    PostMainMessageLoopRun use_x11 os_macosx parts
      = { destructors_ := parts.destructors_.map (fun _ => OnceClosure.null)
          trace := parts.trace ++ shutdownEvents use_x11 os_macosx ++
            (boundIds parts.destructors_).map MainPartsEvent.Run } := by
  simp only [PostMainMessageLoopRun, RunDestructors_eq, shutdownEvents]
  cases use_x11 <;> cases os_macosx <;> simp

theorem RegisterAll_destructors (parts : AtomBrowserMainParts) (callbacks : List OnceClosure) :
    (RegisterAll parts callbacks).destructors_ = callbacks.reverse ++ parts.destructors_
    ∧ (RegisterAll parts callbacks).trace = parts.trace := by
  unfold RegisterAll
  induction callbacks generalizing parts with
  | nil => simp
  | cons callback rest ih =>
    simp only [List.foldl_cons]
    obtain ⟨h1, h2⟩ := ih (RegisterDestructionCallback parts callback)
    rw [h1, h2]
    simp [RegisterDestructionCallback]

theorem boundIds_append (a b : List OnceClosure) :
    boundIds (a ++ b) = boundIds a ++ boundIds b := by
  induction a with
  | nil => simp [boundIds]
  | cons callback rest ih => cases callback <;> simp [boundIds, ih]

theorem boundIds_map_null (callbacks : List OnceClosure) :
    boundIds (callbacks.map (fun _ => OnceClosure.null)) = [] := by
  induction callbacks with
  | nil => rfl
  | cons callback rest ih => simpa [boundIds] using ih

/-! ## The claims -/

/-- C1 (as stated, refuted): request `42` is pending with handler `1`, and the
reply is a metafile message for `42` whose page count is `0`.  After the whole
handling the map still holds `42`, bound to handler `1`, and no handler has
been run. -/
theorem C1_counterexample :
    CallbackMap.find pendingState.print_to_pdf_callback_map_ 42
      = some (PrintToPDFCallback.bound 1)
    ∧ ∃ s', HandleMessage sharedRegions pendingState
        (Message.PrintHostMsg_MetafileReadyForPrinting
          { content := { metafile_data_handle := 100, data_size := 5 }
            document_cookie := 7
            expected_pages_count := 0 }
          { request_id := 42 }) = .ok s'
      ∧ CallbackMap.find s'.print_to_pdf_callback_map_ 42 = some (PrintToPDFCallback.bound 1)
      ∧ s'.trace.filter Event.isRun = [] :=
  ⟨rfl, _, rfl, rfl, rfl⟩

/-- C1 (amended): a request `r` is pending with handler `h` and the threads are
idle.  For every reply for `r` that is a failure message or a metafile message
with a positive page count, the whole handling (the message, then the copy task
and its reply) returns normally, the callback map no longer holds `r`, and the
only handler run is `h`, for `r`, exactly once. -/
theorem C1_reply_resolves_once (shm : List (Nat × List Nat)) (s : State) (message : Message)
    (r : Int) (h : Handler)
    (hio : s.io_thread = []) (hui : s.ui_thread = [])
    (hpend : CallbackMap.find s.print_to_pdf_callback_map_ r
      = some (PrintToPDFCallback.bound h))
    (hreply : message.request_id = some r)
    (hres : message.isResolving = true) :
    ∃ s' delta error buffer,
      HandleMessage shm s message = .ok s'
      ∧ CallbackMap.find s'.print_to_pdf_callback_map_ r = none
      ∧ s'.trace = s.trace ++ delta
      ∧ delta.filter Event.isRun = [Event.Run r h error buffer] := by
  cases message with
  | Other type => simp [Message.request_id] at hreply
  | PrintHostMsg_PrintPreviewFailed document_cookie ids =>
    simp only [Message.request_id, Option.some.injEq] at hreply
    subst hreply
    rw [HandleMessage_failed_idle shm s document_cookie ids h hio hui hpend]
    exact ⟨_, failedEvents shm s.queue document_cookie ids.request_id h,
      V8Value.Error "Failed to generate PDF", V8Value.Null, rfl,
      CallbackMap.find_erase_self _ _, rfl, filter_isRun_failedEvents _ _ _ _ _⟩
  | PrintHostMsg_MetafileReadyForPrinting params ids =>
    simp only [Message.request_id, Option.some.injEq] at hreply
    subst hreply
    have hpages : 0 < params.expected_pages_count := by
      simpa [Message.isResolving] using hres
    rw [HandleMessage_ready_idle shm s params ids h hio hui hpend hpages]
    have hrun := filter_isRun_readyEvents shm s.queue params ids.request_id h
    cases hcopy : CopyPDFDataOnIOThread shm params with
    | none =>
      rw [hcopy] at hrun
      exact ⟨_, readyEvents shm s.queue params ids.request_id h,
        V8Value.Error "Failed to generate PDF", V8Value.Null, rfl,
        CallbackMap.find_erase_self _ _, rfl, hrun⟩
    | some bytes =>
      rw [hcopy] at hrun
      exact ⟨_, readyEvents shm s.queue params ids.request_id h,
        V8Value.Null, V8Value.Buffer (bytes.take params.content.data_size), rfl,
        CallbackMap.find_erase_self _ _, rfl, hrun⟩

/-- Witness of C1 (amended): request `42` is issued through `PrintToPDF` with
handler `9` on the state with nothing registered, and a failure reply comes. -/
theorem C1_reply_resolves_once_witness :
    ∃ s' delta error buffer,
      HandleMessage sharedRegions
          (PrintToPDF emptyState { kPreviewRequestID := some 42, settings := 0 }
            (PrintToPDFCallback.bound 9) 0)
          (Message.PrintHostMsg_PrintPreviewFailed 7 { request_id := 42 }) = .ok s'
      ∧ CallbackMap.find s'.print_to_pdf_callback_map_ 42 = none
      ∧ s'.trace
          = (PrintToPDF emptyState { kPreviewRequestID := some 42, settings := 0 }
              (PrintToPDFCallback.bound 9) 0).trace ++ delta
      ∧ delta.filter Event.isRun = [Event.Run 42 9 error buffer] :=
  C1_reply_resolves_once sharedRegions
    (PrintToPDF emptyState { kPreviewRequestID := some 42, settings := 0 }
      (PrintToPDFCallback.bound 9) 0)
    (Message.PrintHostMsg_PrintPreviewFailed 7 { request_id := 42 }) 42 9 rfl rfl rfl rfl rfl

/-- C2 (as stated, refuted): with nothing registered, resolving request `7` is
not a silent no-op.  The call ends in a fault, on the success path as on the
failure path, and so does a second failure reply for request `5` after the
first one has resolved it. -/
theorem C2_counterexample :
    CallbackMap.find emptyState.print_to_pdf_callback_map_ 7 = none
    ∧ RunPrintToPDFCallback emptyState 7 0 none ≠ .ok emptyState
    ∧ reached (RunPrintToPDFCallback emptyState 7 0 none)
        = { emptyState with print_to_pdf_callback_map_ := [(7, PrintToPDFCallback.null)] }
    ∧ RunPrintToPDFCallback emptyState 7 2 (some [1, 2])
        = .error (Fault.NullCallbackRun 7,
            { emptyState with print_to_pdf_callback_map_ := [(7, PrintToPDFCallback.null)] })
    ∧ (∃ s1, OnPrintPreviewFailed pendingState 0 { request_id := 5 } = .ok s1
        ∧ ∃ s2, OnPrintPreviewFailed s1 0 { request_id := 5 }
            = .error (Fault.NullCallbackRun 5, s2)) := by
  refine ⟨rfl, ?_, rfl, rfl, ?_⟩
  · intro h
    cases h
  · exact ⟨_, rfl, _, rfl⟩

/-- C2 (amended): resolving a request id that has no entry in the callback map
is not guarded.  Whatever the data, `operator[]` inserts a null callback under
that id and `Run` on it faults; at the fault no handler has been run (the event
log is the one before the call) and every other entry of the map is as before. -/
theorem C2_unregistered_id_faults (s : State) (request_id : Int) (data_size : Nat)
    (data : Option (List Nat))
    (habsent : CallbackMap.find s.print_to_pdf_callback_map_ request_id = none) :
    RunPrintToPDFCallback s request_id data_size data
      = .error (Fault.NullCallbackRun request_id,
          { s with print_to_pdf_callback_map_ :=
              s.print_to_pdf_callback_map_ ++ [(request_id, PrintToPDFCallback.null)] })
    ∧ (reached (RunPrintToPDFCallback s request_id data_size data)).trace = s.trace
    ∧ ∀ other, other ≠ request_id →
        CallbackMap.find
          (reached (RunPrintToPDFCallback s request_id data_size data)).print_to_pdf_callback_map_
          other
        = CallbackMap.find s.print_to_pdf_callback_map_ other := by
  rw [RunPrintToPDFCallback_of_absent s request_id data_size data habsent]
  refine ⟨rfl, rfl, ?_⟩
  intro other hne
  simp only [reached, CallbackMap.find_append, CallbackMap.find]
  have h : ¬ request_id = other := fun h => hne h.symm
  cases CallbackMap.find s.print_to_pdf_callback_map_ other <;> simp [h]

/-- Witness of C2 (amended): request `7` on the state with nothing registered. -/
theorem C2_unregistered_id_faults_witness :
    RunPrintToPDFCallback emptyState 7 0 none
      = .error (Fault.NullCallbackRun 7,
          { emptyState with print_to_pdf_callback_map_ :=
              emptyState.print_to_pdf_callback_map_ ++ [(7, PrintToPDFCallback.null)] }) :=
  (C2_unregistered_id_faults emptyState 7 0 none rfl).1

/-- C3: on the success path (a metafile message with a positive page count whose
shared region maps to `memory`), for a pending request and idle threads, the
whole handling returns normally and the only handler run is the one of the
request, with a null error and a buffer of exactly `data_size` bytes that
equal, position by position, the first `data_size` bytes of the region. -/
theorem C3_success_delivers_copy (shm : List (Nat × List Nat)) (s : State)
    (params : PrintHostMsg_DidPreviewDocument_Params) (ids : PrintHostMsg_PreviewIds)
    (h : Handler) (memory : List Nat)
    (hio : s.io_thread = []) (hui : s.ui_thread = [])
    (hpend : CallbackMap.find s.print_to_pdf_callback_map_ ids.request_id
      = some (PrintToPDFCallback.bound h))
    (hpages : 0 < params.expected_pages_count)
    (hmap : SharedMemoryMap shm params.content.metafile_data_handle params.content.data_size
      = some memory) :
    ∃ s' delta bytes,
      HandleMessage shm s (Message.PrintHostMsg_MetafileReadyForPrinting params ids) = .ok s'
      ∧ s'.trace = s.trace ++ delta
      ∧ delta.filter Event.isRun
          = [Event.Run ids.request_id h V8Value.Null (V8Value.Buffer bytes)]
      ∧ bytes.length = params.content.data_size
      ∧ ∀ i, i < params.content.data_size → bytes[i]? = memory[i]? := by
  rw [HandleMessage_ready_idle shm s params ids h hio hui hpend hpages]
  have hrun := filter_isRun_readyEvents shm s.queue params ids.request_id h
  rw [CopyPDFDataOnIOThread_of_map shm params memory hmap] at hrun
  have hlen := SharedMemoryMap_length shm _ _ memory hmap
  refine ⟨_, readyEvents shm s.queue params ids.request_id h,
    (memory.take params.content.data_size).take params.content.data_size, rfl, rfl, hrun, ?_, ?_⟩
  · simp [List.length_take, hlen]
  · intro i hi
    simp [List.getElem?_take, hi]

/-- Witness of C3: request `42` is pending, the region behind handle `100` holds
five bytes and the message asks for five. -/
theorem C3_success_delivers_copy_witness :
    ∃ s' delta bytes,
      HandleMessage sharedRegions pendingState
        (Message.PrintHostMsg_MetafileReadyForPrinting
          { content := { metafile_data_handle := 100, data_size := 5 }
            document_cookie := 7
            expected_pages_count := 3 }
          { request_id := 42 }) = .ok s'
      ∧ s'.trace = pendingState.trace ++ delta
      ∧ delta.filter Event.isRun = [Event.Run 42 1 V8Value.Null (V8Value.Buffer bytes)]
      ∧ bytes.length = 5
      ∧ ∀ i, i < 5 → bytes[i]? = [37, 80, 68, 70, 45][i]? :=
  C3_success_delivers_copy sharedRegions pendingState
    { content := { metafile_data_handle := 100, data_size := 5 }
      document_cookie := 7
      expected_pages_count := 3 }
    { request_id := 42 } 1 [37, 80, 68, 70, 45] rfl rfl rfl (by decide) rfl

/-- C4: on either failure path (a failure message, or a metafile message with a
positive page count whose shared region fails to map, so that the copy returns
the null pointer), for a pending request and idle threads, the whole handling
returns normally and the only handler run is the one of the request, with the
error "Failed to generate PDF" and a null buffer: no buffer is delivered. -/
theorem C4_failure_delivers_error (shm : List (Nat × List Nat)) (s : State)
    (message : Message) (r : Int) (h : Handler)
    (hio : s.io_thread = []) (hui : s.ui_thread = [])
    (hpend : CallbackMap.find s.print_to_pdf_callback_map_ r
      = some (PrintToPDFCallback.bound h))
    (hreply : message.request_id = some r)
    (hfail : message.isFailure shm = true) :
    ∃ s' delta,
      HandleMessage shm s message = .ok s'
      ∧ s'.trace = s.trace ++ delta
      ∧ delta.filter Event.isRun
          = [Event.Run r h (V8Value.Error "Failed to generate PDF") V8Value.Null] := by
  cases message with
  | Other type => simp [Message.request_id] at hreply
  | PrintHostMsg_PrintPreviewFailed document_cookie ids =>
    simp only [Message.request_id, Option.some.injEq] at hreply
    subst hreply
    rw [HandleMessage_failed_idle shm s document_cookie ids h hio hui hpend]
    exact ⟨_, failedEvents shm s.queue document_cookie ids.request_id h, rfl, rfl,
      filter_isRun_failedEvents _ _ _ _ _⟩
  | PrintHostMsg_MetafileReadyForPrinting params ids =>
    simp only [Message.request_id, Option.some.injEq] at hreply
    subst hreply
    simp only [Message.isFailure, Bool.and_eq_true, decide_eq_true_eq,
      Option.isNone_iff_eq_none] at hfail
    rw [HandleMessage_ready_idle shm s params ids h hio hui hpend hfail.1]
    have hrun := filter_isRun_readyEvents shm s.queue params ids.request_id h
    rw [CopyPDFDataOnIOThread_of_map_failure shm params hfail.2] at hrun
    exact ⟨_, readyEvents shm s.queue params ids.request_id h, rfl, rfl, hrun⟩

/-- Witness of C4: request `42` is pending and the message names the handle
`101`, which is not live, so the mapping fails. -/
theorem C4_failure_delivers_error_witness :
    ∃ s' delta,
      HandleMessage sharedRegions pendingState
        (Message.PrintHostMsg_MetafileReadyForPrinting
          { content := { metafile_data_handle := 101, data_size := 5 }
            document_cookie := 7
            expected_pages_count := 3 }
          { request_id := 42 }) = .ok s'
      ∧ s'.trace = pendingState.trace ++ delta
      ∧ delta.filter Event.isRun
          = [Event.Run 42 1 (V8Value.Error "Failed to generate PDF") V8Value.Null] :=
  C4_failure_delivers_error sharedRegions pendingState
    (Message.PrintHostMsg_MetafileReadyForPrinting
      { content := { metafile_data_handle := 101, data_size := 5 }
        document_cookie := 7
        expected_pages_count := 3 }
      { request_id := 42 }) 42 1 rfl rfl rfl rfl rfl

/-- C5: in the whole handling of a reply message, from any state, at most one
query is popped from the print-query queue and at most one stop task is posted,
and at most one query leaves the queue; when the document cookie of the message
is not positive, no query is popped, no stop task is posted and the queue is
unchanged. -/
theorem C5_worker_stop_at_most_once (shm : List (Nat × List Nat)) (s : State)
    (message : Message) (document_cookie : Int)
    (hc : message.document_cookie = some document_cookie) :
    ∃ delta, (reached (HandleMessage shm s message)).trace = s.trace ++ delta
      ∧ (delta.filter Event.isPopPrinterQuery).length ≤ 1
      ∧ (delta.filter Event.isPostStop).length ≤ 1
      ∧ s.queue.length ≤ (reached (HandleMessage shm s message)).queue.length + 1
      ∧ (document_cookie ≤ 0 →
          delta.filter Event.isPopPrinterQuery = []
          ∧ delta.filter Event.isPostStop = []
          ∧ (reached (HandleMessage shm s message)).queue = s.queue) := by
  obtain ⟨rest, htr, hrest, hq⟩ := HandleMessage_effects shm s message document_cookie hc
  obtain ⟨hpop, hpost, _, hnil⟩ := stopEvents_counts s.queue document_cookie
  have hrpop := filter_eq_nil_of_not_stopStep Event.isPopPrinterQuery rest
    isStopStep_of_isPopPrinterQuery hrest
  have hrpost := filter_eq_nil_of_not_stopStep Event.isPostStop rest
    isStopStep_of_isPostStop hrest
  refine ⟨_, by rw [htr, List.append_assoc], ?_, ?_, ?_, ?_⟩
  · simpa [List.filter_append, List.filter_cons, Event.isPopPrinterQuery, hrpop] using hpop
  · simpa [List.filter_append, List.filter_cons, Event.isPostStop, hrpost] using hpost
  · rw [hq]
    unfold stopQueue
    by_cases h : document_cookie ≤ 0
    · simp [h]
    · simpa [h] using PopPrinterQuery_length s.queue document_cookie
  · intro h
    refine ⟨?_, ?_, ?_⟩
    · simp [List.filter_append, List.filter_cons, Event.isPopPrinterQuery, hrpop, hnil h]
    · simp [List.filter_append, List.filter_cons, Event.isPostStop, hrpost, hnil h]
    · rw [hq]
      simp [stopQueue, h]

/-- Witness of C5: a failure reply with the cookie `0` for the pending request `5`. -/
theorem C5_worker_stop_at_most_once_witness :
    ∃ delta,
      (reached (HandleMessage sharedRegions pendingState
        (Message.PrintHostMsg_PrintPreviewFailed 0 { request_id := 5 }))).trace
        = pendingState.trace ++ delta
      ∧ (delta.filter Event.isPopPrinterQuery).length ≤ 1
      ∧ (delta.filter Event.isPostStop).length ≤ 1
      ∧ pendingState.queue.length ≤
          (reached (HandleMessage sharedRegions pendingState
            (Message.PrintHostMsg_PrintPreviewFailed 0 { request_id := 5 }))).queue.length + 1
      ∧ ((0 : Int) ≤ 0 →
          delta.filter Event.isPopPrinterQuery = []
          ∧ delta.filter Event.isPostStop = []
          ∧ (reached (HandleMessage sharedRegions pendingState
              (Message.PrintHostMsg_PrintPreviewFailed 0 { request_id := 5 }))).queue
              = pendingState.queue) :=
  C5_worker_stop_at_most_once sharedRegions pendingState
    (Message.PrintHostMsg_PrintPreviewFailed 0 { request_id := 5 }) 0 rfl

/-- C6: for two distinct pending request ids `a` and `b`, resolving `a`, with a
buffer or with the null pointer, returns normally, leaves the entry of `b` bound
to the same callback, and logs the run of the callback of `a` and the erasure
of `a` only: the callback stored under `b` is not run. -/
theorem C6_resolving_leaves_other_request (s : State) (a b : Int) (data_size : Nat)
    (data : Option (List Nat)) (ha : Handler) (cb : PrintToPDFCallback)
    (hne : a ≠ b)
    (hpa : CallbackMap.find s.print_to_pdf_callback_map_ a = some (PrintToPDFCallback.bound ha))
    (hpb : CallbackMap.find s.print_to_pdf_callback_map_ b = some cb) :
    ∃ s' error buffer,
      RunPrintToPDFCallback s a data_size data = .ok s'
      ∧ CallbackMap.find s'.print_to_pdf_callback_map_ b = some cb
      ∧ s'.trace = s.trace ++ [Event.Run a ha error buffer, Event.Erase a]
      ∧ (s'.trace.drop s.trace.length).filter (Event.isRunOf b) = [] := by
  rw [RunPrintToPDFCallback_of_bound s a data_size data ha hpa]
  cases data with
  | none =>
    refine ⟨_, _, _, rfl, ?_, rfl, ?_⟩
    · simpa [CallbackMap.find_erase_ne _ hne] using hpb
    · simp [Event.isRunOf, deliveredRun, hne]
  | some bytes =>
    refine ⟨_, _, _, rfl, ?_, rfl, ?_⟩
    · simpa [CallbackMap.find_erase_ne _ hne] using hpb
    · simp [Event.isRunOf, deliveredRun, hne]

/-- Witness of C6: requests `42` and `5` are pending, `42` is resolved with a
two-byte buffer. -/
theorem C6_resolving_leaves_other_request_witness :
    ∃ s' error buffer,
      RunPrintToPDFCallback pendingState 42 2 (some [1, 2]) = .ok s'
      ∧ CallbackMap.find s'.print_to_pdf_callback_map_ 5 = some (PrintToPDFCallback.bound 2)
      ∧ s'.trace = pendingState.trace ++ [Event.Run 42 1 error buffer, Event.Erase 42]
      ∧ (s'.trace.drop pendingState.trace.length).filter (Event.isRunOf 5) = [] :=
  C6_resolving_leaves_other_request pendingState 42 5 2 (some [1, 2]) 1
    (PrintToPDFCallback.bound 2) (by decide) rfl rfl

/-- C7: a metafile message whose page count is not positive is dropped.
`OnMessageReceived` returns true; the callback map and the UI thread are
unchanged; the IO thread gains stop tasks only, so no copy task; the log gains
no posting or run of a copy, no run of a handler and no erasure.  A request
pending under the id of the message therefore stays registered, and a later
failure message for the same id resolves it: its handler is run once, with the
error and a null buffer, and the id leaves the map. -/
theorem C7_nonpositive_page_count_is_dropped (s : State)
    (params : PrintHostMsg_DidPreviewDocument_Params) (ids : PrintHostMsg_PreviewIds)
    (hpages : params.expected_pages_count ≤ 0) :
    ∃ s1 tasks delta,
      OnMessageReceived s (Message.PrintHostMsg_MetafileReadyForPrinting params ids)
        = .ok (true, s1)
      ∧ s1.print_to_pdf_callback_map_ = s.print_to_pdf_callback_map_
      ∧ s1.ui_thread = s.ui_thread
      ∧ s1.io_thread = s.io_thread ++ tasks
      ∧ (∀ t ∈ tasks, ∃ printer_query, t = IOTask.StopWorker printer_query)
      ∧ s1.trace = s.trace ++ delta
      ∧ (∀ e ∈ delta, e.isCopyOrResolution = false)
      ∧ ∀ h, CallbackMap.find s.print_to_pdf_callback_map_ ids.request_id
            = some (PrintToPDFCallback.bound h) →
          ∀ document_cookie, ∃ s2 delta2,
            OnMessageReceived s1 (Message.PrintHostMsg_PrintPreviewFailed document_cookie ids)
              = .ok (true, s2)
            ∧ CallbackMap.find s2.print_to_pdf_callback_map_ ids.request_id = none
            ∧ s2.trace = s1.trace ++ delta2
            ∧ delta2.filter Event.isRun
                = [Event.Run ids.request_id h (V8Value.Error "Failed to generate PDF")
                    V8Value.Null] := by
  refine ⟨OnMetafileReadyForPrinting s params ids, stopTasks s.queue params.document_cookie,
    Event.StopWorker params.document_cookie :: stopEvents s.queue params.document_cookie,
    rfl, ?_, ?_, ?_, ?_, ?_, ?_, ?_⟩
  · rw [OnMetafileReadyForPrinting_eq]
  · rw [OnMetafileReadyForPrinting_eq]
  · rw [OnMetafileReadyForPrinting_eq]
    simp [hpages]
  · intro t ht
    rcases stopTasks_cases s.queue params.document_cookie with h0 | ⟨q, h1⟩
    · simp [h0] at ht
    · rw [h1] at ht
      exact ⟨q, by simpa using ht⟩
  · rw [OnMetafileReadyForPrinting_eq]
    simp [hpages]
  · intro e he
    apply not_isCopyOrResolution_of_isStopStep
    rcases List.mem_cons.mp he with he | he
    · simp [he, Event.isStopStep]
    · exact stopEvents_isStopStep _ _ e he
  · intro h hpend document_cookie
    have hpend1 : CallbackMap.find
        (StopWorker (OnMetafileReadyForPrinting s params ids)
          document_cookie).print_to_pdf_callback_map_ ids.request_id
        = some (PrintToPDFCallback.bound h) := by
      rw [StopWorker_eq, OnMetafileReadyForPrinting_eq]
      exact hpend
    simp only [OnMessageReceived_failed, bind, Except.bind, pure, Except.pure,
      RunPrintToPDFCallback_of_bound _ _ _ _ h hpend1]
    refine ⟨_, Event.StopWorker document_cookie ::
      stopEvents (OnMetafileReadyForPrinting s params ids).queue document_cookie ++
      [deliveredRun ids.request_id h 0 none, Event.Erase ids.request_id], rfl,
      CallbackMap.find_erase_self _ _, ?_, ?_⟩
    · rw [StopWorker_eq]
      simp
    · have h1 : (Event.StopWorker document_cookie).isRun = false := rfl
      have h4 : (Event.Erase ids.request_id).isRun = false := rfl
      simp only [List.filter_append, List.filter_cons, filter_isRun_stopEvents, h1, h4,
        deliveredRun_isRun]
      simp [deliveredRun]

/-- Witness of C7: request `42` is pending and a metafile message for it comes
with the page count `0`. -/
theorem C7_nonpositive_page_count_is_dropped_witness :
    ∃ s1 tasks delta,
      OnMessageReceived pendingState
        (Message.PrintHostMsg_MetafileReadyForPrinting
          { content := { metafile_data_handle := 100, data_size := 5 }
            document_cookie := 7
            expected_pages_count := 0 }
          { request_id := 42 })
        = .ok (true, s1)
      ∧ s1.print_to_pdf_callback_map_ = pendingState.print_to_pdf_callback_map_
      ∧ s1.ui_thread = pendingState.ui_thread
      ∧ s1.io_thread = pendingState.io_thread ++ tasks
      ∧ (∀ t ∈ tasks, ∃ printer_query, t = IOTask.StopWorker printer_query)
      ∧ s1.trace = pendingState.trace ++ delta
      ∧ (∀ e ∈ delta, e.isCopyOrResolution = false)
      ∧ ∀ h, CallbackMap.find pendingState.print_to_pdf_callback_map_ 42
            = some (PrintToPDFCallback.bound h) →
          ∀ document_cookie, ∃ s2 delta2,
            OnMessageReceived s1
              (Message.PrintHostMsg_PrintPreviewFailed document_cookie { request_id := 42 })
              = .ok (true, s2)
            ∧ CallbackMap.find s2.print_to_pdf_callback_map_ 42 = none
            ∧ s2.trace = s1.trace ++ delta2
            ∧ delta2.filter Event.isRun
                = [Event.Run 42 h (V8Value.Error "Failed to generate PDF") V8Value.Null] :=
  C7_nonpositive_page_count_is_dropped pendingState
    { content := { metafile_data_handle := 100, data_size := 5 }
      document_cookie := 7
      expected_pages_count := 0 }
    { request_id := 42 } (by decide)

/-- C8: in the sequence of effects of the whole handling of a reply message,
from any state, the new events split in two parts.  The first part starts with
the entry of `StopWorker` for the cookie of the message and holds worker-stop
events only, so no posting or run of the copy, no run of a handler and no
erasure is in it; the second part holds no worker-stop event.  Every copy and
every resolution thus comes after the worker-stop step. -/
theorem C8_worker_stop_comes_first (shm : List (Nat × List Nat)) (s : State)
    (message : Message) (document_cookie : Int)
    (hc : message.document_cookie = some document_cookie) :
    ∃ stop rest,
      (reached (HandleMessage shm s message)).trace
        = s.trace ++ (Event.StopWorker document_cookie :: stop) ++ rest
      ∧ (∀ e ∈ Event.StopWorker document_cookie :: stop,
          e.isStopStep = true ∧ e.isCopyOrResolution = false)
      ∧ (∀ e ∈ rest, e.isStopStep = false)
      ∧ (∀ e ∈ stop ++ rest, e.isStopWorker = false) := by
  obtain ⟨rest, htr, hrest, _⟩ := HandleMessage_effects shm s message document_cookie hc
  refine ⟨stopEvents s.queue document_cookie, rest, htr, ?_, hrest, ?_⟩
  · intro e he
    have hstep : e.isStopStep = true := by
      rcases List.mem_cons.mp he with he | he
      · simp [he, Event.isStopStep]
      · exact stopEvents_isStopStep _ _ e he
    exact ⟨hstep, not_isCopyOrResolution_of_isStopStep e hstep⟩
  · intro e he
    rcases List.mem_append.mp he with he | he
    · have h := (stopEvents_counts s.queue document_cookie).2.2.1
      rw [List.filter_eq_nil_iff] at h
      simpa using h e he
    · have h2 := hrest e he
      cases hsw : e.isStopWorker with
      | false => rfl
      | true => rw [isStopStep_of_isStopWorker e hsw] at h2; cases h2

/-- Witness of C8: a metafile reply with the cookie `7` for the pending request `42`. -/
theorem C8_worker_stop_comes_first_witness :
    ∃ stop rest,
      (reached (HandleMessage sharedRegions pendingState
        (Message.PrintHostMsg_MetafileReadyForPrinting
          { content := { metafile_data_handle := 100, data_size := 5 }
            document_cookie := 7
            expected_pages_count := 3 }
          { request_id := 42 }))).trace
        = pendingState.trace ++ (Event.StopWorker 7 :: stop) ++ rest
      ∧ (∀ e ∈ Event.StopWorker 7 :: stop, e.isStopStep = true ∧ e.isCopyOrResolution = false)
      ∧ (∀ e ∈ rest, e.isStopStep = false)
      ∧ (∀ e ∈ stop ++ rest, e.isStopWorker = false) :=
  C8_worker_stop_comes_first sharedRegions pendingState
    (Message.PrintHostMsg_MetafileReadyForPrinting
      { content := { metafile_data_handle := 100, data_size := 5 }
        document_cookie := 7
        expected_pages_count := 3 }
      { request_id := 42 }) 7 rfl

/-- C9 (as stated, refuted): a failure message is of a kind the handler owns, yet
with nothing registered under its request id `OnMessageReceived` does not
return true: the resolution faults after the worker-stop step. -/
theorem C9_counterexample :
    OnMessageReceived emptyState (Message.PrintHostMsg_PrintPreviewFailed 0 { request_id := 5 })
      = .error (Fault.NullCallbackRun 5,
          { emptyState with
            print_to_pdf_callback_map_ := [(5, PrintToPDFCallback.null)]
            trace := [Event.StopWorker 0] })
    ∧ ∀ s', OnMessageReceived emptyState
        (Message.PrintHostMsg_PrintPreviewFailed 0 { request_id := 5 }) ≠ .ok (true, s') := by
  refine ⟨rfl, ?_⟩
  intro s' h
  cases h

/-- C9 (amended): `OnMessageReceived` routes by kind.  For every kind other than
the two it owns it returns false and leaves the whole state as it was: no
worker stop, the callback map unchanged.  For every metafile message it returns
true.  For a failure message it returns true when a non-null callback is
registered under the request id; when none is, the resolution faults and
nothing is returned.  It never returns false for a message of the two kinds. -/
theorem C9_routes_by_kind (s : State) (message : Message) :
    match message with
    | Message.Other _ => OnMessageReceived s message = .ok (false, s)
    | Message.PrintHostMsg_MetafileReadyForPrinting _ _ =>
      ∃ s', OnMessageReceived s message = .ok (true, s')
    | Message.PrintHostMsg_PrintPreviewFailed _ ids =>
      match CallbackMap.find s.print_to_pdf_callback_map_ ids.request_id with
      | some (PrintToPDFCallback.bound _) => ∃ s', OnMessageReceived s message = .ok (true, s')
      | _ => ∃ s', OnMessageReceived s message = .error (Fault.NullCallbackRun ids.request_id, s') := by
  cases message with
  | Other type => rfl
  | PrintHostMsg_MetafileReadyForPrinting params ids => exact ⟨_, rfl⟩
  | PrintHostMsg_PrintPreviewFailed document_cookie ids =>
    have hmap : (StopWorker s document_cookie).print_to_pdf_callback_map_
        = s.print_to_pdf_callback_map_ := by
      rw [StopWorker_eq]
    cases hfind : CallbackMap.find s.print_to_pdf_callback_map_ ids.request_id with
    | none =>
      have hf : CallbackMap.find (StopWorker s document_cookie).print_to_pdf_callback_map_
          ids.request_id = none := by rw [hmap, hfind]
      simp only [OnMessageReceived_failed, bind, Except.bind,
        RunPrintToPDFCallback_of_absent _ _ _ _ hf, hfind]
      exact ⟨_, rfl⟩
    | some cb =>
      cases cb with
      | null =>
        have hf : CallbackMap.find (StopWorker s document_cookie).print_to_pdf_callback_map_
            ids.request_id = some PrintToPDFCallback.null := by rw [hmap, hfind]
        simp only [OnMessageReceived_failed, bind, Except.bind,
          RunPrintToPDFCallback_of_null _ _ _ _ hf, hfind]
        exact ⟨_, rfl⟩
      | bound h =>
        have hf : CallbackMap.find (StopWorker s document_cookie).print_to_pdf_callback_map_
            ids.request_id = some (PrintToPDFCallback.bound h) := by rw [hmap, hfind]
        simp only [OnMessageReceived_failed, bind, Except.bind, pure,
          Except.pure, RunPrintToPDFCallback_of_bound _ _ _ _ h hf, hfind]
        exact ⟨_, rfl⟩

/-- C10 (the map holds exactly one entry for a pending id `r`, bound to `h1`):
registering `h2` under `r` through `PrintToPDF` leaves exactly one entry for
`r`, now bound to `h2`; the next resolution of `r`, with a buffer or with the
null pointer, returns normally, runs `h2` and nothing else, and leaves no entry
for `r`, so `h1` is not run then and cannot be run later. -/
theorem C10_reregistration_overwrites (s : State) (options : DictionaryValue)
    (r : Int) (h1 h2 : Handler) (uninitialised : Int)
    (hopt : options.kPreviewRequestID = some r)
    (hone : CallbackMap.entries s.print_to_pdf_callback_map_ r
      = [(r, PrintToPDFCallback.bound h1)]) :
    CallbackMap.entries
        (PrintToPDF s options (PrintToPDFCallback.bound h2) uninitialised).print_to_pdf_callback_map_
        r = [(r, PrintToPDFCallback.bound h2)]
    ∧ ∀ data_size data, ∃ s2 error buffer,
        RunPrintToPDFCallback (PrintToPDF s options (PrintToPDFCallback.bound h2) uninitialised)
          r data_size data = .ok s2
        ∧ s2.trace
            = (PrintToPDF s options (PrintToPDFCallback.bound h2) uninitialised).trace
              ++ [Event.Run r h2 error buffer, Event.Erase r]
        ∧ CallbackMap.entries s2.print_to_pdf_callback_map_ r = [] := by
  have hfind : CallbackMap.find s.print_to_pdf_callback_map_ r
      = some (PrintToPDFCallback.bound h1) := by
    rw [CallbackMap.find_eq_head_entries, hone]
    rfl
  have hmap : (PrintToPDF s options (PrintToPDFCallback.bound h2)
      uninitialised).print_to_pdf_callback_map_
      = s.print_to_pdf_callback_map_.map
          (fun e => if e.1 = r then (e.1, PrintToPDFCallback.bound h2) else e) := by
    simp [PrintToPDF, hopt, State.log, CallbackMap.assign, CallbackMap.subscript_of_find hfind]
  have hfind2 : CallbackMap.find (PrintToPDF s options (PrintToPDFCallback.bound h2)
      uninitialised).print_to_pdf_callback_map_ r = some (PrintToPDFCallback.bound h2) := by
    rw [hmap, CallbackMap.find_map_assign, hfind]
    rfl
  refine ⟨?_, ?_⟩
  · rw [hmap, CallbackMap.entries_map_assign, hone]
    rfl
  · intro data_size data
    rw [RunPrintToPDFCallback_of_bound _ r data_size data h2 hfind2]
    cases data with
    | none => exact ⟨_, _, _, rfl, rfl, CallbackMap.entries_erase _ _⟩
    | some bytes => exact ⟨_, _, _, rfl, rfl, CallbackMap.entries_erase _ _⟩

/-- Witness of C10: request `42` is pending with handler `1` and is registered
again with handler `9`. -/
theorem C10_reregistration_overwrites_witness :
    CallbackMap.entries
        (PrintToPDF pendingState { kPreviewRequestID := some 42, settings := 0 }
          (PrintToPDFCallback.bound 9) 0).print_to_pdf_callback_map_
        42 = [(42, PrintToPDFCallback.bound 9)]
    ∧ ∀ data_size data, ∃ s2 error buffer,
        RunPrintToPDFCallback
          (PrintToPDF pendingState { kPreviewRequestID := some 42, settings := 0 }
            (PrintToPDFCallback.bound 9) 0)
          42 data_size data = .ok s2
        ∧ s2.trace
            = (PrintToPDF pendingState { kPreviewRequestID := some 42, settings := 0 }
                (PrintToPDFCallback.bound 9) 0).trace
              ++ [Event.Run 42 9 error buffer, Event.Erase 42]
        ∧ CallbackMap.entries s2.print_to_pdf_callback_map_ 42 = [] :=
  C10_reregistration_overwrites pendingState { kPreviewRequestID := some 42, settings := 0 }
    42 1 9 0 rfl rfl

/-- C11: a request id `r` is registered with handler `h` and is not registered
again.  Over every finite run (any sequence of reply messages and of other
messages, repeats for the same id included, interleaved in any way with the
runs of the pending IO tasks and UI replies, up to the first fault), the
callback stored under `r` is run at most once: the log holds the runs it held
before, or those and one more, of `h`.  That one run is either on the success
path (null error, a buffer) or on the failure path (the error, null buffer), so
the handler is never run once on each path. -/
theorem C11_resolved_at_most_once (shm : List (Nat × List Nat)) (s : State) (r : Int)
    (h : Handler) (steps : List Step)
    (hpend : CallbackMap.find s.print_to_pdf_callback_map_ r
      = some (PrintToPDFCallback.bound h)) :
    (reached (RunSteps shm steps s)).trace.filter (Event.isRunOf r)
        = s.trace.filter (Event.isRunOf r)
    ∨ ∃ error buffer,
        (reached (RunSteps shm steps s)).trace.filter (Event.isRunOf r)
          = s.trace.filter (Event.isRunOf r) ++ [Event.Run r h error buffer]
        ∧ ((error = V8Value.Null ∧ ∃ bytes, buffer = V8Value.Buffer bytes)
          ∨ (error = V8Value.Error "Failed to generate PDF" ∧ buffer = V8Value.Null)) :=
  RunSteps_Tracked shm steps s (Or.inl ⟨rfl, hpend⟩)

/-- Witness of C11: request `42` is pending; a metafile reply and a failure reply
for it arrive before the copy task and its reply run. -/
theorem C11_resolved_at_most_once_witness :
    (reached (RunSteps sharedRegions
        [Step.Receive (Message.PrintHostMsg_MetafileReadyForPrinting
            { content := { metafile_data_handle := 100, data_size := 5 }
              document_cookie := 7
              expected_pages_count := 3 }
            { request_id := 42 }),
          Step.Receive (Message.PrintHostMsg_PrintPreviewFailed 7 { request_id := 42 }),
          Step.RunIOTask, Step.RunIOTask, Step.RunUITask]
        pendingState)).trace.filter (Event.isRunOf 42)
        = pendingState.trace.filter (Event.isRunOf 42)
    ∨ ∃ error buffer,
        (reached (RunSteps sharedRegions
          [Step.Receive (Message.PrintHostMsg_MetafileReadyForPrinting
              { content := { metafile_data_handle := 100, data_size := 5 }
                document_cookie := 7
                expected_pages_count := 3 }
              { request_id := 42 }),
            Step.Receive (Message.PrintHostMsg_PrintPreviewFailed 7 { request_id := 42 }),
            Step.RunIOTask, Step.RunIOTask, Step.RunUITask]
          pendingState)).trace.filter (Event.isRunOf 42)
          = pendingState.trace.filter (Event.isRunOf 42) ++ [Event.Run 42 1 error buffer]
        ∧ ((error = V8Value.Null ∧ ∃ bytes, buffer = V8Value.Buffer bytes)
          ∨ (error = V8Value.Error "Failed to generate PDF" ∧ buffer = V8Value.Null)) :=
  C11_resolved_at_most_once sharedRegions pendingState 42 1 _ rfl

/-- C12: the worker-stop call is made on every reply, whatever the page count.
From any state, for every metafile message and every failure message,
`OnMessageReceived` first does all that `StopWorker` does with the document
cookie of the message: the log grows by the entry of `StopWorker` with that
cookie, then by its pop and post events, and the queue is the one `StopWorker`
leaves.  No other entry of `StopWorker` follows.  A metafile message whose page
count is not positive is dropped only after that: the call returns true with
exactly the state `StopWorker` leaves. -/
theorem C12_stop_worker_called_on_every_reply (s : State) (message : Message)
    (document_cookie : Int) (hc : message.document_cookie = some document_cookie) :
    (∃ rest,
      (reachedBy (OnMessageReceived s message)).trace
        = s.trace ++ Event.StopWorker document_cookie :: rest
      ∧ (∀ e ∈ rest, e.isStopWorker = false))
    ∧ (∃ rest tasks,
        (reachedBy (OnMessageReceived s message)).trace
          = (StopWorker s document_cookie).trace ++ rest
        ∧ (reachedBy (OnMessageReceived s message)).io_thread
          = (StopWorker s document_cookie).io_thread ++ tasks)
    ∧ (reachedBy (OnMessageReceived s message)).queue = (StopWorker s document_cookie).queue
    ∧ (∀ params ids, message = Message.PrintHostMsg_MetafileReadyForPrinting params ids →
        params.expected_pages_count ≤ 0 →
        OnMessageReceived s message = .ok (true, StopWorker s document_cookie)) := by
  obtain ⟨rest, tasks, htr, hrest, hq, hio⟩ :=
    OnMessageReceived_effects s message document_cookie hc
  refine ⟨⟨stopEvents s.queue document_cookie ++ rest, ?_, ?_⟩, ⟨rest, tasks, htr, hio⟩, hq, ?_⟩
  · rw [htr, StopWorker_eq]
    simp
  · intro e he
    rcases List.mem_append.mp he with he | he
    · have h := (stopEvents_counts s.queue document_cookie).2.2.1
      rw [List.filter_eq_nil_iff] at h
      simpa using h e he
    · have h2 := hrest e he
      cases hsw : e.isStopWorker with
      | false => rfl
      | true => rw [isStopStep_of_isStopWorker e hsw] at h2; cases h2
  · intro params ids hm hpages
    subst hm
    simp only [Message.document_cookie, Option.some.injEq] at hc
    subst hc
    rw [OnMessageReceived_ready]
    simp [OnMetafileReadyForPrinting, hpages]

/-- Witness of C12: a metafile message with the cookie `7` and the page count `0`. -/
theorem C12_stop_worker_called_on_every_reply_witness :
    OnMessageReceived pendingState
      (Message.PrintHostMsg_MetafileReadyForPrinting
        { content := { metafile_data_handle := 100, data_size := 5 }
          document_cookie := 7
          expected_pages_count := 0 }
        { request_id := 42 })
      = .ok (true, StopWorker pendingState 7) :=
  (C12_stop_worker_called_on_every_reply pendingState
    (Message.PrintHostMsg_MetafileReadyForPrinting
      { content := { metafile_data_handle := 100, data_size := 5 }
        document_cookie := 7
        expected_pages_count := 0 }
      { request_id := 42 }) 7 rfl).2.2.2 _ _ rfl (by decide)

/-- C13: for a positive document cookie, `StopWorker` takes the query for that
cookie out of the print-query queue and leaves the queries for other cookies in
place, in their order.  When a query for the cookie is queued, the first such
query is the one removed and one stop task, bound to that query, is posted to
the IO thread; when none is queued, no task is posted and the queue is
unchanged. -/
theorem C13_stop_worker_pops_and_posts (s : State) (document_cookie : Int)
    (hpos : 0 < document_cookie) :
    ((∃ q ∈ s.queue, q.cookie = document_cookie) →
      ∃ before q after,
        s.queue = before ++ q :: after
        ∧ q.cookie = document_cookie
        ∧ (∀ x ∈ before, x.cookie ≠ document_cookie)
        ∧ (StopWorker s document_cookie).queue = before ++ after
        ∧ (StopWorker s document_cookie).io_thread = s.io_thread ++ [IOTask.StopWorker q])
    ∧ ((∀ q ∈ s.queue, q.cookie ≠ document_cookie) →
        (StopWorker s document_cookie).queue = s.queue
        ∧ (StopWorker s document_cookie).io_thread = s.io_thread)
    ∧ (StopWorker s document_cookie).queue.filter
          (fun q => decide (q.cookie ≠ document_cookie))
        = s.queue.filter (fun q => decide (q.cookie ≠ document_cookie)) := by
  have hc : ¬ document_cookie ≤ 0 := by omega
  rw [StopWorker_eq]
  simp only [stopQueue, stopTasks, hc, if_false]
  refine ⟨?_, ?_, PopPrinterQuery_others s.queue document_cookie⟩
  · intro hpresent
    obtain ⟨before, q, after, hsplit, hqc, hbefore, hpop⟩ :=
      PopPrinterQuery_present s.queue document_cookie hpresent
    exact ⟨before, q, after, hsplit, hqc, hbefore, by rw [hpop], by rw [hpop]⟩
  · intro habsent
    rw [PopPrinterQuery_absent s.queue document_cookie habsent]
    simp

/-- Witness of C13: the cookie `9`, whose query is the second of the queue. -/
theorem C13_stop_worker_pops_and_posts_witness :
    (0 : Int) < 9
    ∧ ∃ before q after,
        pendingState.queue = before ++ q :: after
        ∧ q.cookie = 9
        ∧ (∀ x ∈ before, x.cookie ≠ 9)
        ∧ (StopWorker pendingState 9).queue = before ++ after
        ∧ (StopWorker pendingState 9).io_thread
            = pendingState.io_thread ++ [IOTask.StopWorker q] :=
  ⟨by decide,
    (C13_stop_worker_pops_and_posts pendingState 9 (by decide)).1
      ⟨{ cookie := 9, id := 1 }, by decide, rfl⟩⟩

/-- C14: destruction callbacks run in the reverse of their registration order.
For every list of callbacks registered one after the other through
`RegisterDestructionCallback`, `PostMainMessageLoopRun` logs its shutdown
events and then runs the callbacks that are not null, the last registered
first, ahead of those that were registered earlier; null callbacks are
skipped.  Each callback is run once: the loop leaves only null closures, and a
second `PostMainMessageLoopRun` runs nothing. -/
theorem C14_destructors_run_in_reverse (use_x11 os_macosx : Bool)
    (parts : AtomBrowserMainParts) (callbacks : List OnceClosure) :
    (PostMainMessageLoopRun use_x11 os_macosx (RegisterAll parts callbacks)).trace
      = parts.trace ++ shutdownEvents use_x11 os_macosx
        ++ (boundIds callbacks.reverse).map MainPartsEvent.Run
        ++ (boundIds parts.destructors_).map MainPartsEvent.Run
    ∧ (∀ callback ∈
        (PostMainMessageLoopRun use_x11 os_macosx (RegisterAll parts callbacks)).destructors_,
        callback = OnceClosure.null)
    ∧ (PostMainMessageLoopRun use_x11 os_macosx
        (PostMainMessageLoopRun use_x11 os_macosx (RegisterAll parts callbacks))).trace
      = (PostMainMessageLoopRun use_x11 os_macosx (RegisterAll parts callbacks)).trace
        ++ shutdownEvents use_x11 os_macosx := by
  obtain ⟨hd, ht⟩ := RegisterAll_destructors parts callbacks
  refine ⟨?_, ?_, ?_⟩
  · rw [PostMainMessageLoopRun_eq, hd, ht, boundIds_append]
    simp
  · rw [PostMainMessageLoopRun_eq]
    intro callback hmem
    simp only [List.mem_map] at hmem
    obtain ⟨_, _, h⟩ := hmem
    exact h.symm
  · rw [PostMainMessageLoopRun_eq use_x11 os_macosx
      (PostMainMessageLoopRun use_x11 os_macosx (RegisterAll parts callbacks))]
    have hnull : boundIds
        (PostMainMessageLoopRun use_x11 os_macosx (RegisterAll parts callbacks)).destructors_
        = [] := by
      rw [PostMainMessageLoopRun_eq]
      exact boundIds_map_null _
    simp [hnull]

/-- Witness of C14: four callbacks, the second of them null, registered on main
parts with no callback yet. -/
theorem C14_destructors_run_in_reverse_witness :
    (PostMainMessageLoopRun false false
      (RegisterAll { destructors_ := [], trace := [] }
        [OnceClosure.bound 1, OnceClosure.null, OnceClosure.bound 2,
          OnceClosure.bound 3])).trace
      = [MainPartsEvent.OnMessageLoopDestroying, MainPartsEvent.Run 3, MainPartsEvent.Run 2,
          MainPartsEvent.Run 1] :=
  (C14_destructors_run_in_reverse false false { destructors_ := [], trace := [] }
    [OnceClosure.bound 1, OnceClosure.null, OnceClosure.bound 2, OnceClosure.bound 3]).1

end atom
